import Mathlib

/-!
# Solar-System-Simulation: verification of `src/main.cpp`

A shallow embedding of the ellipse-mesh generator, the vertex buffer setup, the
per-body transformation pipeline, the render loop with the asteroid belt, the
frame flip, the input handler and the texture loader of `src/main.cpp`,
followed by the theorems about them.

Conventions of the embedding.

* `float` values live in a type `F` with field operations; the functions
  `cosf`, `sinf` and the constant `M_PI` of `<cmath>` are parameters
  `cosf sinf : F → F` and `pi : F`.  The real-number model is `F = ℝ` with
  `Real.cos`, `Real.sin` and `Real.pi`.
* a C++ `int` is an `Int` in the range `INT_MIN .. INT_MAX`; `segment++` on
  `INT_MAX` is signed overflow (undefined behaviour) and yields no result.
* `glfwGetTime()` is a clock parameter; OpenGL draw commands are collected in
  a list of `DrawCall` records.
* the captured frame is a list of bytes; `std::swap` on two of its elements is
  `swapBytes`.
-/

set_option linter.constructorNameAsVariable false

namespace SolarSystem

/-! ## Machine integers -/

/-- Largest value of a 32-bit C++ `int`. -/
def INT_MAX : Int := 2147483647

/-! ## `getObjectVertices` (main.cpp 177-194) -/

section Vertices
variable {F : Type} [Field F]

/-- The `for (int segment = 0; segment <= segments; segment++)` loop of
`getObjectVertices`, started at the current value of `segment` with the
vector built so far.  Each iteration pushes `x` then `y`; the increment of
`segment` at `INT_MAX` overflows and gives `none`. -/
def getObjectVerticesLoop (cosf sinf : F → F) (pi : F) (radius_x_axis radius_y_axis : F)
    (segments : Int) (segment : Int) (vertices : List F) : Option (List F) :=
  if segment ≤ segments then
    let angle := (2 * pi * (segment : F)) / (segments : F)
    let x := radius_x_axis * cosf angle
    let y := radius_y_axis * sinf angle
    if segment < INT_MAX then
      getObjectVerticesLoop cosf sinf pi radius_x_axis radius_y_axis segments (segment + 1)
        (vertices ++ [x, y])
    else none
  else some vertices
termination_by (segments + 1 - segment).toNat
decreasing_by omega

/-- The function `getObjectVertices(radius_x_axis, radius_y_axis, segments)`:
an empty vector, then the loop from `segment = 0`. -/
def getObjectVertices (cosf sinf : F → F) (pi : F) (radius_x_axis radius_y_axis : F)
    (segments : Int) : Option (List F) :=
  getObjectVerticesLoop cosf sinf pi radius_x_axis radius_y_axis segments 0 []

/-- Proof device: the `x, y` pairs pushed by `m` consecutive iterations that
start at `segment`. -/
def ellipsePairs (cosf sinf : F → F) (pi : F) (rx ry : F) (segments : Int) :
    Int → Nat → List F
  | _, 0 => []
  | segment, m + 1 =>
    (rx * cosf ((2 * pi * (segment : F)) / (segments : F))) ::
    (ry * sinf ((2 * pi * (segment : F)) / (segments : F))) ::
    ellipsePairs cosf sinf pi rx ry segments (segment + 1) m

end Vertices

/-! ## Data model (main.cpp 56-73) -/

/-- The vertex array objects that `main` creates with `setupObjectBuffer`, one
constructor per C++ variable (OpenGL hands out a distinct name for each). -/
inductive VAO
  | sunVAO
  | mercuryVAO | mercuryOrbitVAO
  | venusVAO | venusOrbitVAO
  | earthVAO | earthOrbitVAO
  | earthMoonVAO | earthMoonOrbitVAO
  | marsVAO | marsOrbitVAO
  | asteroidBeltVAO
  | jupiterVAO | jupiterOrbitVAO
  | jupiterMoon1VAO | jupiterMoon2VAO | jupiterMoon1OrbitVAO | jupiterMoon2OrbitVAO
  | saturnVAO | saturnOrbitVAO
  | saturnRingVAO
  | uranusVAO | uranusOrbitVAO
  | neptuneVAO | neptuneOrbitVAO
  | cometVAO | cometOrbitVAO
  deriving DecidableEq, Repr

/-- A `glm::vec4`. -/
structure Vec4 (F : Type) where
  x : F
  y : F
  z : F
  w : F

/-- The struct `CelestialBodies`, field by field. -/
structure CelestialBodies (F : Type) where
  VAO : VAO
  moveSpeed : F
  orbitRadiusX : F
  orbitRadiusY : F
  scale : F
  segments : Int
  updatePosX : F
  updatePosY : F
  rotationSpeed : F
  isScale : Bool
  isTranslate : Bool
  isRotate : Bool
  isVisible : Bool
  isDrawAsRing : Bool
  color : Vec4 F
  textureID : Nat

/-- A `glm::mat4`, as the matrix it denotes: entry `(r, c)` is glm's `m[c][r]`. -/
abbrev Mat4 (F : Type) := Matrix (Fin 4) (Fin 4) F

/-! ## GLM functions used by `drawPlanet` -/

namespace glm
variable {F : Type} [Field F]

/-- The function `glm::translate(m, v)`: the last column becomes
`m[0]*v[0] + m[1]*v[1] + m[2]*v[2] + m[3]`, the others are kept. -/
def translate (m : Mat4 F) (v : Fin 3 → F) : Mat4 F :=
  fun r c => if c = 3 then m r 0 * v 0 + m r 1 * v 1 + m r 2 * v 2 + m r 3 else m r c

/-- The function `glm::scale(m, v)`: column `i < 3` is `m[i]*v[i]`, column 3 is
kept. -/
def scale (m : Mat4 F) (v : Fin 3 → F) : Mat4 F :=
  fun r c =>
    if c = 0 then m r 0 * v 0
    else if c = 1 then m r 1 * v 1
    else if c = 2 then m r 2 * v 2
    else m r 3

/-- The function `glm::rotate(m, angle, axis)` for an axis of unit length
(glm normalises the axis first; the only call passes `(0, 0, 1)`). -/
def rotate (cosf sinf : F → F) (m : Mat4 F) (angle : F) (axis : Fin 3 → F) : Mat4 F :=
  let c := cosf angle
  let s := sinf angle
  let temp : Fin 3 → F := fun i => (1 - c) * axis i
  let r00 := c + temp 0 * axis 0
  let r01 := temp 0 * axis 1 + s * axis 2
  let r02 := temp 0 * axis 2 - s * axis 1
  let r10 := temp 1 * axis 0 - s * axis 2
  let r11 := c + temp 1 * axis 1
  let r12 := temp 1 * axis 2 + s * axis 0
  let r20 := temp 2 * axis 0 + s * axis 1
  let r21 := temp 2 * axis 1 - s * axis 0
  let r22 := c + temp 2 * axis 2
  fun r col =>
    if col = 0 then m r 0 * r00 + m r 1 * r01 + m r 2 * r02
    else if col = 1 then m r 0 * r10 + m r 1 * r11 + m r 2 * r12
    else if col = 2 then m r 0 * r20 + m r 1 * r21 + m r 2 * r22
    else m r 3

/-- The function `glm::radians(degrees)`. -/
def radians (pi : F) (degrees : F) : F := degrees * (pi / 180)

end glm

/-! ## Shaders (main.cpp 98-135) -/

section Shaders
variable {F : Type} [Field F]

/-- The vertex shader: `gl_Position = transform * vec4(aPos, 0.0, 1.0)`. -/
def vertexShader (transform : Mat4 F) (aPos : F × F) : Fin 4 → F :=
  Matrix.mulVec transform ![aPos.1, aPos.2, 0, 1]

/-- The fragment shader: the texture sample if `useTexture`, else the uniform
`color`. -/
def fragmentShader (useTexture : Bool) (textureSample color : Vec4 F) : Vec4 F :=
  if useTexture then textureSample else color

end Shaders

/-! ## `drawPlanet` (main.cpp 203-269) -/

/-- Primitive mode of `glDrawArrays`. -/
inductive DrawMode
  | GL_LINE_LOOP
  | GL_TRIANGLE_FAN
  deriving DecidableEq, Repr

/-- What one call of `drawPlanet` hands to OpenGL: the uniforms `transform`,
`color` and `useTexture`, the texture bound to unit 0 (only when `useTexture`),
the vertex array bound and the `glDrawArrays` mode and count. -/
structure DrawCall (F : Type) where
  shaderProgram : Nat
  transform : Mat4 F
  color : Vec4 F
  useTexture : Bool
  boundTexture : Option Nat
  vao : VAO
  mode : DrawMode
  count : Int

section Draw
variable {F : Type} [Field F]

/-- The function `drawPlanet`.  `time` is the value `(float)glfwGetTime()` read
at the start of the call.  The result is the draw call issued and the returned
vector `updatedPlanetLocation`. -/
def drawPlanet (cosf sinf : F → F) (pi : F) (time : F)
    (shaderProgram : Nat) (VAO : VAO) (planetMoveSpeed orbitRadiusX orbitRadiusY scale : F)
    (segments : Int) (updatePosX updatePosY rotationSpeed : F)
    (isScale isTranslate isRotate isDrawAsRing : Bool) (color : Vec4 F)
    (useTexture : Bool) (textureID : Nat) : DrawCall F × List F :=
  let angle := time * planetMoveSpeed
  let angleRotate := time * rotationSpeed
  let planetOrbitPosition_x := orbitRadiusX * cosf angle + updatePosX
  let planetOrbitPosition_y := orbitRadiusY * sinf angle + updatePosY
  let transformation : Mat4 F := 1
  let transformation :=
    if isTranslate = true then
      glm.translate transformation ![planetOrbitPosition_x, planetOrbitPosition_y, 0]
    else transformation
  let transformation :=
    if isScale = true then glm.scale transformation ![scale, scale, 1] else transformation
  let transformation :=
    if isRotate = true then
      glm.rotate cosf sinf transformation (glm.radians pi angleRotate) ![0, 0, 1]
    else transformation
  ({ shaderProgram := shaderProgram
     transform := transformation
     color := color
     useTexture := useTexture
     boundTexture := if useTexture then some textureID else none
     vao := VAO
     mode := if isDrawAsRing = true then DrawMode.GL_LINE_LOOP else DrawMode.GL_TRIANGLE_FAN
     count := segments },
   [planetOrbitPosition_x, planetOrbitPosition_y])

end Draw

/-! ## `setupObjectBuffer` (main.cpp 846-862) and the buffers of `main` (320-389) -/

section Buffers
variable {F : Type} [Field F]

/-- The loop `for (int i = 0; i < vertices.size() / 2; ++i)` of
`setupObjectBuffer`: position `x, y`, then texture coordinates `u, v`. -/
def setupObjectBufferLoop (radius_x_axis radius_y_axis : F) (vertices : List F)
    (i : Int) (data : List F) : Option (List F) :=
  if 0 ≤ i ∧ i < ((vertices.length / 2 : Nat) : Int) then
    let vx := vertices.getD (2 * i.toNat) 0
    let vy := vertices.getD (2 * i.toNat + 1) 0
    let data := data ++ [vx, vy, vx / (2 * radius_x_axis) + 0.5, vy / (2 * radius_y_axis) + 0.5]
    if i < INT_MAX then
      setupObjectBufferLoop radius_x_axis radius_y_axis vertices (i + 1) data
    else none
  else some data
termination_by (((vertices.length / 2 : Nat) : Int) - i).toNat
decreasing_by omega

/-- The data that `setupObjectBuffer(VAO, VBO, radius_x_axis, radius_y_axis,
segments)` uploads with `glBufferData`. -/
def setupObjectBuffer (cosf sinf : F → F) (pi : F) (radius_x_axis radius_y_axis : F)
    (segments : Int) : Option (List F) :=
  match getObjectVertices cosf sinf pi radius_x_axis radius_y_axis segments with
  | some vertices => setupObjectBufferLoop radius_x_axis radius_y_axis vertices 0 []
  | none => none

/-- The arguments `(radius_x_axis, radius_y_axis, segments)` of the one
`setupObjectBuffer` call that `main` makes for each vertex array object. -/
def mainBufferArgs : VAO → F × F × Int
  | .sunVAO => (0.05, 0.05, 100)
  | .mercuryVAO => (0.05, 0.05, 100)
  | .mercuryOrbitVAO => (0.09, 0.07, 100)
  | .venusVAO => (0.05, 0.05, 100)
  | .venusOrbitVAO => (0.16, 0.13, 100)
  | .earthVAO => (0.05, 0.05, 100)
  | .earthOrbitVAO => (0.21, 0.18, 100)
  | .earthMoonVAO => (0.05, 0.05, 100)
  | .earthMoonOrbitVAO => (0.05, 0.04, 100)
  | .marsVAO => (0.05, 0.05, 100)
  | .marsOrbitVAO => (0.32, 0.29, 100)
  | .asteroidBeltVAO => (0.05, 0.05, 100)
  | .jupiterVAO => (0.05, 0.05, 100)
  | .jupiterOrbitVAO => (0.52, 0.49, 100)
  | .jupiterMoon1VAO => (0.05, 0.05, 100)
  | .jupiterMoon2VAO => (0.05, 0.05, 100)
  | .jupiterMoon1OrbitVAO => (0.05, 0.03, 100)
  | .jupiterMoon2OrbitVAO => (0.07, 0.05, 100)
  | .saturnVAO => (0.05, 0.05, 100)
  | .saturnOrbitVAO => (0.69, 0.65, 100)
  | .saturnRingVAO => (0.05, 0.05, 100)
  | .uranusVAO => (0.05, 0.05, 100)
  | .uranusOrbitVAO => (0.85, 0.79, 100)
  | .neptuneVAO => (0.05, 0.05, 100)
  | .neptuneOrbitVAO => (0.95, 0.89, 100)
  | .cometVAO => (0.06, 0.02, 100)
  | .cometOrbitVAO => (0.95, 0.89, 100)

/-- The vertex positions stored in the buffer of a vertex array object. -/
def mainBufferVertices (cosf sinf : F → F) (pi : F) (vao : VAO) : Option (List F) :=
  getObjectVertices cosf sinf pi (mainBufferArgs (F := F) vao).1 (mainBufferArgs (F := F) vao).2.1
    (mainBufferArgs (F := F) vao).2.2

end Buffers

/-! ## `loadTexture` (main.cpp 980-1027) -/

/-- What `stbi_load` reports about an image it could read. -/
structure Image where
  width : Int
  height : Int
  nrComponents : Int

/-- Pixel formats chosen by `loadTexture`. -/
inductive GLFormat
  | GL_RED
  | GL_RGB
  | GL_RGBA
  deriving DecidableEq, Repr

/-- The effects and the return value of one `loadTexture` call. -/
structure LoadResult where
  returned : Nat
  upload : Option (Nat × GLFormat × Int × Int)
  message : Option String

/-- The function `loadTexture(path)`.  `stbi_load` is the image loader
(`none` is the null pointer) and `textureID` the name that `glGenTextures`
wrote into the local variable. -/
def loadTexture (stbi_load : String → Option Image) (textureID : Nat) (path : String) :
    LoadResult :=
  match stbi_load path with
  | some data =>
    let format :=
      if data.nrComponents = 1 then GLFormat.GL_RED
      else if data.nrComponents = 3 then GLFormat.GL_RGB
      else if data.nrComponents = 4 then GLFormat.GL_RGBA
      else GLFormat.GL_RGB
    { returned := textureID
      upload := some (textureID, format, data.width, data.height)
      message := none }
  | none =>
    { returned := 0
      upload := none
      message := some ("Texture failed to load at path: " ++ path) }

/-! ## The state of `main` (main.cpp 392-507) -/

/-- The variables of `main` that the render loop reads and `processInput`
receives by reference. -/
structure World (F : Type) where
  sun : CelestialBodies F
  mercury : CelestialBodies F
  venus : CelestialBodies F
  earth : CelestialBodies F
  mars : CelestialBodies F
  jupiter : CelestialBodies F
  saturn : CelestialBodies F
  uranus : CelestialBodies F
  neptune : CelestialBodies F
  moon : CelestialBodies F
  jupiterMoonIo : CelestialBodies F
  jupiterMoonCallisto : CelestialBodies F
  comet : CelestialBodies F
  isDrawAsteroidBelt : Bool
  asteroidBeltMoveSpeed : F
  selectedObject : Int

section Init
variable {F : Type} [Field F]

/-- The initialisation part of `main`: the texture of each body is loaded with
`loadTexture` (the background texture is generated first, so the `i`-th body
texture uses `glGenTextures i`), then the bodies and the panel variables get
their initial values. -/
def initWorld (stbi_load : String → Option Image) (glGenTextures : Nat → Nat) : World F :=
  let sunTextureID := (loadTexture stbi_load (glGenTextures 1) "textures/sun.png").returned
  let mercuryTextureID := (loadTexture stbi_load (glGenTextures 2) "textures/mercury.png").returned
  let venusTextureID := (loadTexture stbi_load (glGenTextures 3) "textures/venus.png").returned
  let earthTextureID := (loadTexture stbi_load (glGenTextures 4) "textures/earth.png").returned
  let marsTextureID := (loadTexture stbi_load (glGenTextures 5) "textures/mars.png").returned
  let jupiterTextureID := (loadTexture stbi_load (glGenTextures 6) "textures/jupiter.png").returned
  let saturnTextureID := (loadTexture stbi_load (glGenTextures 7) "textures/saturn.png").returned
  let uranusTextureID := (loadTexture stbi_load (glGenTextures 8) "textures/uranus.png").returned
  let neptuneTextureID := (loadTexture stbi_load (glGenTextures 9) "textures/neptune.png").returned
  let moonTextureID := (loadTexture stbi_load (glGenTextures 10) "textures/moon.png").returned
  let ioTextureID := (loadTexture stbi_load (glGenTextures 11) "textures/io.png").returned
  let callistoTextureID :=
    (loadTexture stbi_load (glGenTextures 12) "textures/callisto.png").returned
  { sun := ⟨.sunVAO, 0, 0, 0, 0.9, 100, 0, 0, 10, true, true, true, true, false,
      ⟨1, 1, 0, 1⟩, sunTextureID⟩
    mercury := ⟨.mercuryVAO, 1.2, 0.09, 0.07, 0.2, 100, 0, 0, 50, true, true, true, true, false,
      ⟨0.42, 0.38, 0.35, 1⟩, mercuryTextureID⟩
    venus := ⟨.venusVAO, 0.9, 0.16, 0.13, 0.24, 100, 0, 0, 50, true, true, true, true, false,
      ⟨0.91, 0.71, 0.42, 1⟩, venusTextureID⟩
    earth := ⟨.earthVAO, 0.8, 0.21, 0.18, 0.35, 100, 0, 0, 50, true, true, true, true, false,
      ⟨0, 0.5, 1, 0.1⟩, earthTextureID⟩
    mars := ⟨.marsVAO, 0.6, 0.32, 0.29, 0.31, 100, 0, 0, 50, true, true, true, true, false,
      ⟨0.80, 0.36, 0.23, 1⟩, marsTextureID⟩
    jupiter := ⟨.jupiterVAO, 0.4, 0.52, 0.49, 0.6, 100, 0, 0, 50, true, true, true, true, false,
      ⟨0.76, 0.61, 0.47, 1⟩, jupiterTextureID⟩
    saturn := ⟨.saturnVAO, 0.3, 0.69, 0.65, 0.43, 100, 0, 0, 50, true, true, true, true, false,
      ⟨0.90, 0.85, 0.50, 1⟩, saturnTextureID⟩
    uranus := ⟨.uranusVAO, 0.2, 0.85, 0.79, 0.31, 100, 0, 0, 50, true, true, true, true, false,
      ⟨0.4, 0.6, 0.8, 1⟩, uranusTextureID⟩
    neptune := ⟨.neptuneVAO, 0.1, 0.95, 0.89, 0.31, 100, 0, 0, 50, true, true, true, true, false,
      ⟨0.2, 0.3, 0.8, 1⟩, neptuneTextureID⟩
    moon := ⟨.earthMoonVAO, 1.3, 0.04, 0.03, 0.12, 100, 0, 0, 50, true, true, true, true, false,
      ⟨0.72, 0.72, 0.72, 1⟩, moonTextureID⟩
    jupiterMoonIo := ⟨.jupiterMoon1VAO, 0.8, 0.05, 0.05, 0.13, 100, 0, 0, 50, true, true, true,
      true, false, ⟨1, 0.85, 0.35, 1⟩, ioTextureID⟩
    jupiterMoonCallisto := ⟨.jupiterMoon2VAO, 0.6, 0.07, 0.06, 0.15, 100, 0, 0, 50, true, true,
      true, true, false, ⟨0.85, 0.24, 0.21, 1⟩, callistoTextureID⟩
    comet := ⟨.cometVAO, 0.2, 0.5, 0.2, 0.15, 100, 0, 0, 50, true, true, true, true, false,
      ⟨0, 1, 1, 1⟩, 0⟩
    isDrawAsteroidBelt := true
    asteroidBeltMoveSpeed := 0.07
    selectedObject := 0 }

end Init

/-! ## `drawAsteroidBelt` (main.cpp 799-835) -/

section Render
variable {F : Type} [Field F]

/-- Global `ASTERIOD_BELT_RADIUS_X`. -/
def ASTERIOD_BELT_RADIUS_X : F := 0.42
/-- Global `ASTERIOD_BELT_RADIUS_Y`. -/
def ASTERIOD_BELT_RADIUS_Y : F := 0.40
/-- Global `ASTERIOD_BELT_RADIUS2_X`. -/
def ASTERIOD_BELT_RADIUS2_X : F := 0.41
/-- Global `ASTERIOD_BELT_RADIUS2_Y`. -/
def ASTERIOD_BELT_RADIUS2_Y : F := 0.39
/-- Global `ASTERIOD_BELT_RADIUS3_X`. -/
def ASTERIOD_BELT_RADIUS3_X : F := 0.4
/-- Global `ASTERIOD_BELT_RADIUS3_Y`. -/
def ASTERIOD_BELT_RADIUS3_Y : F := 0.38

/-- The draw calls issued so far in a frame, in order, together with the number
of `glfwGetTime()` calls made so far; `clock i` is the value returned by the
`i`-th such call. -/
abbrev Trace (F : Type) := List (DrawCall F) × Nat

/-- First belt: `for (int segment = 0; segment <= 100; segment += 2)`. -/
def drawAsteroidBelt1 (cosf sinf : F → F) (pi : F) (clock : Nat → F) (shaderProgram : Nat)
    (asteroidBeltVAO : VAO) (asteroidBeltSpeed : F) (segment : Int) (tr : Trace F) : Trace F :=
  if segment ≤ 100 then
    let angle := (2 * pi * (segment : F)) / 100
    let x := ASTERIOD_BELT_RADIUS_X * cosf (angle + asteroidBeltSpeed * clock tr.2)
    let y := ASTERIOD_BELT_RADIUS_Y * sinf (angle + asteroidBeltSpeed * clock (tr.2 + 1))
    let d := drawPlanet cosf sinf pi (clock (tr.2 + 2)) shaderProgram asteroidBeltVAO
      0.5 0.00049 0.0005 0.05 100 x y 50 true true true false ⟨0.5, 0.5, 0.5, 1⟩ false 0
    drawAsteroidBelt1 cosf sinf pi clock shaderProgram asteroidBeltVAO asteroidBeltSpeed
      (segment + 2) (tr.1 ++ [d.1], tr.2 + 3)
  else tr
termination_by (101 - segment).toNat
decreasing_by omega

/-- Second belt, inner loop: `for (int i = 0; i <= 100; i++)`. -/
def drawAsteroidBelt2Inner (cosf sinf : F → F) (pi : F) (clock : Nat → F) (shaderProgram : Nat)
    (asteroidBeltVAO : VAO) (asteroidBeltSpeed : F) (segment : Int) (i : Int) (tr : Trace F) :
    Trace F :=
  if i ≤ 100 then
    let angle := (2 * pi * (segment : F)) / 100
    let x := ASTERIOD_BELT_RADIUS2_X * cosf (angle + asteroidBeltSpeed * clock tr.2)
    let y := ASTERIOD_BELT_RADIUS2_Y * sinf (angle + asteroidBeltSpeed * clock (tr.2 + 1))
    let d := drawPlanet cosf sinf pi (clock (tr.2 + 2)) shaderProgram asteroidBeltVAO
      0.5 0.0059 0.0039 0.09 100 x y 50 true true true false ⟨0.5, 0.5, 0.5, 1⟩ false 0
    drawAsteroidBelt2Inner cosf sinf pi clock shaderProgram asteroidBeltVAO asteroidBeltSpeed
      segment (i + 1) (tr.1 ++ [d.1], tr.2 + 3)
  else tr
termination_by (101 - i).toNat
decreasing_by omega

/-- Second belt, outer loop: `for (int segment = 0; segment <= 100; segment++)`. -/
def drawAsteroidBelt2 (cosf sinf : F → F) (pi : F) (clock : Nat → F) (shaderProgram : Nat)
    (asteroidBeltVAO : VAO) (asteroidBeltSpeed : F) (segment : Int) (tr : Trace F) : Trace F :=
  if segment ≤ 100 then
    drawAsteroidBelt2 cosf sinf pi clock shaderProgram asteroidBeltVAO asteroidBeltSpeed
      (segment + 1)
      (drawAsteroidBelt2Inner cosf sinf pi clock shaderProgram asteroidBeltVAO asteroidBeltSpeed
        segment 0 tr)
  else tr
termination_by (101 - segment).toNat
decreasing_by omega

/-- Third belt: `for (int segment = 0; segment <= 100; segment++)`. -/
def drawAsteroidBelt3 (cosf sinf : F → F) (pi : F) (clock : Nat → F) (shaderProgram : Nat)
    (asteroidBeltVAO : VAO) (asteroidBeltSpeed : F) (segment : Int) (tr : Trace F) : Trace F :=
  if segment ≤ 100 then
    let angle := (2 * pi * (segment : F)) / 100
    let x := ASTERIOD_BELT_RADIUS3_X * cosf (angle + asteroidBeltSpeed * clock tr.2)
    let y := ASTERIOD_BELT_RADIUS3_Y * sinf (angle + asteroidBeltSpeed * clock (tr.2 + 1))
    let d := drawPlanet cosf sinf pi (clock (tr.2 + 2)) shaderProgram asteroidBeltVAO
      0.5 0.00019 0.00019 0.05 100 x y 50 true true true false ⟨0.5, 0.5, 0.5, 1⟩ false 0
    drawAsteroidBelt3 cosf sinf pi clock shaderProgram asteroidBeltVAO asteroidBeltSpeed
      (segment + 1) (tr.1 ++ [d.1], tr.2 + 3)
  else tr
termination_by (101 - segment).toNat
decreasing_by omega

/-- The function `drawAsteroidBelt`: the three belts one after the other. -/
def drawAsteroidBelt (cosf sinf : F → F) (pi : F) (clock : Nat → F) (shaderProgram : Nat)
    (asteroidBeltVAO : VAO) (asteroidBeltSpeed : F) (tr : Trace F) : Trace F :=
  drawAsteroidBelt3 cosf sinf pi clock shaderProgram asteroidBeltVAO asteroidBeltSpeed 0
    (drawAsteroidBelt2 cosf sinf pi clock shaderProgram asteroidBeltVAO asteroidBeltSpeed 0
      (drawAsteroidBelt1 cosf sinf pi clock shaderProgram asteroidBeltVAO asteroidBeltSpeed 0 tr))

/-! ## The render loop of `main` (main.cpp 536-615) -/

/-- One `drawPlanet` call inside a frame: it reads the clock once and issues
one draw call; the returned location is handed back with the new trace. -/
def call (clock : Nat → F) (tr : Trace F) (draw : F → DrawCall F × List F) :
    Trace F × List F :=
  ((tr.1 ++ [(draw (clock tr.2)).1], tr.2 + 1), (draw (clock tr.2)).2)

/-- Block "Draw Mars and its orbital". -/
def drawMars (cosf sinf : F → F) (pi : F) (clock : Nat → F) (shaderProgram : Nat)
    (w : World F) (tr : Trace F) : Trace F :=
  if w.mars.isVisible then
    let r1 := call clock tr fun time => drawPlanet cosf sinf pi time shaderProgram
      .marsOrbitVAO 0 0.32 0.29 0.31 100 0 0 0 false false false true ⟨1, 1, 1, 0.1⟩ false 0
    let r2 := call clock r1.1 fun time => drawPlanet cosf sinf pi time shaderProgram
      .marsVAO w.mars.moveSpeed 0.32 0.29 w.mars.scale 100 0 0 w.mars.rotationSpeed
      true true true false w.mars.color true w.mars.textureID
    r2.1
  else tr

/-- Block "Draw asteroid belt between Mars and Jupiter". -/
def drawBelt (cosf sinf : F → F) (pi : F) (clock : Nat → F) (shaderProgram : Nat)
    (w : World F) (tr : Trace F) : Trace F :=
  if w.isDrawAsteroidBelt then
    drawAsteroidBelt cosf sinf pi clock shaderProgram .asteroidBeltVAO w.asteroidBeltMoveSpeed tr
  else tr

/-- Block "Draw Jupiter and its orbital", with its two moons. -/
def drawJupiter (cosf sinf : F → F) (pi : F) (clock : Nat → F) (shaderProgram : Nat)
    (w : World F) (tr : Trace F) : Trace F :=
  if w.jupiter.isVisible then
    let r1 := call clock tr fun time => drawPlanet cosf sinf pi time shaderProgram
      .jupiterOrbitVAO 0 0.52 0.49 0.6 100 0 0 0 false false false true ⟨1, 1, 1, 0.1⟩ false 0
    let r2 := call clock r1.1 fun time => drawPlanet cosf sinf pi time shaderProgram
      .jupiterVAO w.jupiter.moveSpeed 0.52 0.49 w.jupiter.scale 100 0 0 w.jupiter.rotationSpeed
      true true true false w.jupiter.color true w.jupiter.textureID
    let newJupiterLocation := r2.2
    let r3 := call clock r2.1 fun time => drawPlanet cosf sinf pi time shaderProgram
      .jupiterMoon1VAO w.jupiterMoonIo.moveSpeed 0.05 0.05 w.jupiterMoonIo.scale 100
      (newJupiterLocation.getD 0 0) (newJupiterLocation.getD 1 0) w.jupiterMoonIo.rotationSpeed
      true true true false w.jupiterMoonIo.color true w.jupiterMoonIo.textureID
    let r4 := call clock r3.1 fun time => drawPlanet cosf sinf pi time shaderProgram
      .jupiterMoon2VAO w.jupiterMoonCallisto.moveSpeed 0.07 0.06 w.jupiterMoonCallisto.scale 100
      (newJupiterLocation.getD 0 0) (newJupiterLocation.getD 1 0)
      w.jupiterMoonCallisto.rotationSpeed
      true true true false w.jupiterMoonCallisto.color true w.jupiterMoonCallisto.textureID
    r4.1
  else tr

/-- Block "Draw Saturn and its orbital", with its three rings. -/
def drawSaturn (cosf sinf : F → F) (pi : F) (clock : Nat → F) (shaderProgram : Nat)
    (w : World F) (tr : Trace F) : Trace F :=
  if w.saturn.isVisible then
    let r1 := call clock tr fun time => drawPlanet cosf sinf pi time shaderProgram
      .saturnOrbitVAO 0 0.69 0.65 0.43 100 0 0 0 false false false true ⟨1, 1, 1, 0.1⟩ false 0
    let r2 := call clock r1.1 fun time => drawPlanet cosf sinf pi time shaderProgram
      .saturnVAO w.saturn.moveSpeed 0.69 0.65 w.saturn.scale 100 0 0 w.saturn.rotationSpeed
      true true true false w.saturn.color true w.saturn.textureID
    let newSaturnLocation := r2.2
    let r3 := call clock r2.1 fun time => drawPlanet cosf sinf pi time shaderProgram
      .saturnRingVAO 0 0 0 (0.765 + w.saturn.scale) 100
      (newSaturnLocation.getD 0 0) (newSaturnLocation.getD 1 0) 0
      true true false true ⟨0.95, 0.93, 0.76, 1⟩ false 0
    let r4 := call clock r3.1 fun time => drawPlanet cosf sinf pi time shaderProgram
      .saturnRingVAO 0 0 0 (0.68 + w.saturn.scale) 100
      (newSaturnLocation.getD 0 0) (newSaturnLocation.getD 1 0) 0
      true true false true ⟨0.85, 0.85, 0.85, 1⟩ false 0
    let r5 := call clock r4.1 fun time => drawPlanet cosf sinf pi time shaderProgram
      .saturnRingVAO 0 0 0 (0.64 + w.saturn.scale) 100
      (newSaturnLocation.getD 0 0) (newSaturnLocation.getD 1 0) 0
      true true false true ⟨0.95, 0.93, 0.76, 1⟩ false 0
    r5.1
  else tr

/-- Block "Draw Uranus and its orbital". -/
def drawUranus (cosf sinf : F → F) (pi : F) (clock : Nat → F) (shaderProgram : Nat)
    (w : World F) (tr : Trace F) : Trace F :=
  if w.uranus.isVisible then
    let r1 := call clock tr fun time => drawPlanet cosf sinf pi time shaderProgram
      .uranusOrbitVAO 0 0.85 0.79 0.31 100 0 0 0 false false false true ⟨1, 1, 1, 0.1⟩ false 0
    let r2 := call clock r1.1 fun time => drawPlanet cosf sinf pi time shaderProgram
      .uranusVAO w.uranus.moveSpeed 0.85 0.79 w.uranus.scale 100 0 0 w.uranus.rotationSpeed
      true true true false w.uranus.color true w.uranus.textureID
    r2.1
  else tr

/-- Block "Draw Neptune and its orbital". -/
def drawNeptune (cosf sinf : F → F) (pi : F) (clock : Nat → F) (shaderProgram : Nat)
    (w : World F) (tr : Trace F) : Trace F :=
  if w.neptune.isVisible then
    let r1 := call clock tr fun time => drawPlanet cosf sinf pi time shaderProgram
      .neptuneOrbitVAO 0 0.95 0.89 0.31 100 0 0 0 false false false true ⟨1, 1, 1, 0.1⟩ false 0
    let r2 := call clock r1.1 fun time => drawPlanet cosf sinf pi time shaderProgram
      .neptuneVAO w.neptune.moveSpeed 0.95 0.89 w.neptune.scale 100 0 0 w.neptune.rotationSpeed
      true true true false w.neptune.color true w.neptune.textureID
    r2.1
  else tr

/-- Block "Draw a comet and its orbit". -/
def drawComet (cosf sinf : F → F) (pi : F) (clock : Nat → F) (shaderProgram : Nat)
    (w : World F) (tr : Trace F) : Trace F :=
  if w.comet.isVisible then
    let r1 := call clock tr fun time => drawPlanet cosf sinf pi time shaderProgram
      .cometVAO w.comet.moveSpeed 0.5 0.2 w.comet.scale 100 0 0 w.comet.rotationSpeed
      true true true false w.comet.color false 0
    r1.1
  else tr

/-- Block "Draw Sun if visibility set to true". -/
def drawSun (cosf sinf : F → F) (pi : F) (clock : Nat → F) (shaderProgram : Nat)
    (w : World F) (tr : Trace F) : Trace F :=
  if w.sun.isVisible then
    let r1 := call clock tr fun time => drawPlanet cosf sinf pi time shaderProgram
      .sunVAO w.sun.moveSpeed 0 0 w.sun.scale 100 0 0 w.sun.rotationSpeed
      true true true false w.sun.color true w.sun.textureID
    r1.1
  else tr

/-- Block "Draw Mercury and its orbital if visibility set to true". -/
def drawMercury (cosf sinf : F → F) (pi : F) (clock : Nat → F) (shaderProgram : Nat)
    (w : World F) (tr : Trace F) : Trace F :=
  if w.mercury.isVisible then
    let r1 := call clock tr fun time => drawPlanet cosf sinf pi time shaderProgram
      .mercuryOrbitVAO 0 0.09 0.07 0.2 100 0 0 100 false false false true ⟨1, 1, 1, 1⟩ false 0
    let r2 := call clock r1.1 fun time => drawPlanet cosf sinf pi time shaderProgram
      .mercuryVAO w.mercury.moveSpeed 0.09 0.07 w.mercury.scale 100 0 0 w.mercury.rotationSpeed
      true true true false w.mercury.color true w.mercury.textureID
    r2.1
  else tr

/-- Block "Draw Venus and its orbital if visibility set to true". -/
def drawVenus (cosf sinf : F → F) (pi : F) (clock : Nat → F) (shaderProgram : Nat)
    (w : World F) (tr : Trace F) : Trace F :=
  if w.venus.isVisible then
    let r1 := call clock tr fun time => drawPlanet cosf sinf pi time shaderProgram
      .venusOrbitVAO 0 0.16 0.13 0.24 100 0 0 0 false false false true ⟨1, 1, 1, 0.5⟩ false 0
    let r2 := call clock r1.1 fun time => drawPlanet cosf sinf pi time shaderProgram
      .venusVAO w.venus.moveSpeed 0.16 0.13 w.venus.scale 100 0 0 w.venus.rotationSpeed
      true true true false w.venus.color true w.venus.textureID
    r2.1
  else tr

/-- Block "Draw Earth and its orbital if visibility set to true", with the
Moon. -/
def drawEarth (cosf sinf : F → F) (pi : F) (clock : Nat → F) (shaderProgram : Nat)
    (w : World F) (tr : Trace F) : Trace F :=
  if w.earth.isVisible then
    let r1 := call clock tr fun time => drawPlanet cosf sinf pi time shaderProgram
      .earthOrbitVAO 0 0.21 0.18 0.35 100 0 0 0 false false false true ⟨1, 1, 1, 1⟩ false 0
    let r2 := call clock r1.1 fun time => drawPlanet cosf sinf pi time shaderProgram
      .earthVAO w.earth.moveSpeed 0.21 0.18 w.earth.scale 100 0 0 w.earth.rotationSpeed
      true true true false w.earth.color true w.earth.textureID
    let earthNewLocation := r2.2
    let r3 := call clock r2.1 fun time => drawPlanet cosf sinf pi time shaderProgram
      .earthMoonVAO w.moon.moveSpeed 0.04 0.03 w.moon.scale 100
      (earthNewLocation.getD 0 0) (earthNewLocation.getD 1 0) w.moon.rotationSpeed
      true true true false w.moon.color true w.moon.textureID
    r3.1
  else tr

/-- The body draw calls of one iteration of the render loop, in source order.
The background quad (drawn by another shader program) and the ImGui panel are
not `drawPlanet` calls and are not part of the trace. -/
def renderFrame (cosf sinf : F → F) (pi : F) (clock : Nat → F) (shaderProgram : Nat)
    (w : World F) : Trace F :=
  let tr : Trace F := ([], 0)
  let tr := drawMars cosf sinf pi clock shaderProgram w tr
  let tr := drawBelt cosf sinf pi clock shaderProgram w tr
  let tr := drawJupiter cosf sinf pi clock shaderProgram w tr
  let tr := drawSaturn cosf sinf pi clock shaderProgram w tr
  let tr := drawUranus cosf sinf pi clock shaderProgram w tr
  let tr := drawNeptune cosf sinf pi clock shaderProgram w tr
  let tr := drawComet cosf sinf pi clock shaderProgram w tr
  let tr := drawSun cosf sinf pi clock shaderProgram w tr
  let tr := drawMercury cosf sinf pi clock shaderProgram w tr
  let tr := drawVenus cosf sinf pi clock shaderProgram w tr
  drawEarth cosf sinf pi clock shaderProgram w tr

end Render

/-! ## `processInput` (main.cpp 671-792) -/

/-- The 13 `CelestialBodies&` parameters of `processInput`, in parameter order,
which is also the order of `celestialBodyNames`. -/
inductive Body
  | sun | mercury | venus | earth | mars | jupiter | saturn | uranus | neptune
  | moon | jupiterMoonIo | jupiterMoonCallisto | comet
  deriving DecidableEq, Repr

/-- The per-body parameters of the panel. -/
inductive Param
  | scale
  | rotationSpeed
  | moveSpeed
  | color
  | isVisible
  deriving DecidableEq, Repr

/-- The variable a widget points to. -/
inductive Target
  | selectedObject
  | field (b : Body) (p : Param)
  | asteroidBeltMoveSpeed
  | isDrawAsteroidBelt
  deriving DecidableEq, Repr

/-- A widget shown by `processInput`: its label and the variable it edits. -/
structure Control where
  label : String
  target : Target
  deriving DecidableEq, Repr

/-- The parameter kind a control edits: for the asteroid belt the speed float
is its orbital speed and the flag its visibility. -/
def Control.param (c : Control) : Option Param :=
  match c.target with
  | .selectedObject => none
  | .field _ p => some p
  | .asteroidBeltMoveSpeed => some .moveSpeed
  | .isDrawAsteroidBelt => some .isVisible

/-- The user interaction of one frame, as seen by `processInput`: whether ESC
is pressed and, for each ImGui widget, the value it leaves in the variable it
points to, given its label and the current value. -/
structure UI (F : Type) where
  escapePressed : Bool
  combo : String → Int → Int
  sliderFloat : String → F → F → F → F
  colorEdit4 : String → Vec4 F → Vec4 F
  checkbox : String → Bool → Bool

/-- The array `celestialBodyNames`. -/
def celestialBodyNames : List String :=
  ["Sun", "Mercury", "Venus", "Earth", "Mars", "Jupiter", "Saturn", "Uranus", "Neptune",
   "Moon", "Io", "Callisto", "Comet", "Asteroid Belt"]

/-- Result of `processInput`: the variables passed by reference after the call,
whether `glfwSetWindowShouldClose(window, true)` was called, and the widgets
shown, in order. -/
structure InputResult (F : Type) where
  world : World F
  shouldClose : Bool
  controls : List Control

section Input
variable {F : Type} [Field F]

/-- The function `processInput`. -/
def processInput (ui : UI F) (w : World F) : InputResult F :=
  let selectedObject := ui.combo "Select Planet" w.selectedObject
  let w := { w with selectedObject := selectedObject }
  let combo : Control := ⟨"Select Planet", .selectedObject⟩
  let r : World F × List Control :=
    if selectedObject = 0 then
      ({ w with sun := { w.sun with
           scale := ui.sliderFloat "Size" w.sun.scale 0.1 10
           rotationSpeed := ui.sliderFloat "Rotation Speed" w.sun.rotationSpeed 0 200
           color := ui.colorEdit4 "Color" w.sun.color
           isVisible := ui.checkbox "Add/Remove" w.sun.isVisible } },
       [⟨"Size", .field .sun .scale⟩, ⟨"Rotation Speed", .field .sun .rotationSpeed⟩,
        ⟨"Color", .field .sun .color⟩, ⟨"Add/Remove", .field .sun .isVisible⟩])
    else if selectedObject = 1 then
      ({ w with mercury := { w.mercury with
           scale := ui.sliderFloat "Size" w.mercury.scale 0.1 10
           rotationSpeed := ui.sliderFloat "Rotation Speed" w.mercury.rotationSpeed 0 200
           moveSpeed := ui.sliderFloat "Speed" w.mercury.moveSpeed 0.1 10
           color := ui.colorEdit4 "Color" w.mercury.color
           isVisible := ui.checkbox "Add/Remove" w.mercury.isVisible } },
       [⟨"Size", .field .mercury .scale⟩, ⟨"Rotation Speed", .field .mercury .rotationSpeed⟩,
        ⟨"Speed", .field .mercury .moveSpeed⟩, ⟨"Color", .field .mercury .color⟩,
        ⟨"Add/Remove", .field .mercury .isVisible⟩])
    else if selectedObject = 2 then
      ({ w with venus := { w.venus with
           scale := ui.sliderFloat "Size" w.venus.scale 0.1 10
           rotationSpeed := ui.sliderFloat "Rotation Speed" w.venus.rotationSpeed 0 200
           moveSpeed := ui.sliderFloat "Speed" w.venus.moveSpeed 0.1 10
           color := ui.colorEdit4 "Color" w.venus.color
           isVisible := ui.checkbox "Add/Remove" w.venus.isVisible } },
       [⟨"Size", .field .venus .scale⟩, ⟨"Rotation Speed", .field .venus .rotationSpeed⟩,
        ⟨"Speed", .field .venus .moveSpeed⟩, ⟨"Color", .field .venus .color⟩,
        ⟨"Add/Remove", .field .venus .isVisible⟩])
    else if selectedObject = 3 then
      ({ w with earth := { w.earth with
           scale := ui.sliderFloat "Size" w.earth.scale 0.1 10
           rotationSpeed := ui.sliderFloat "Rotation Speed" w.earth.rotationSpeed 0 200
           moveSpeed := ui.sliderFloat "Speed" w.earth.moveSpeed 0.1 10
           color := ui.colorEdit4 "Color" w.earth.color
           isVisible := ui.checkbox "Add/Remove" w.earth.isVisible } },
       [⟨"Size", .field .earth .scale⟩, ⟨"Rotation Speed", .field .earth .rotationSpeed⟩,
        ⟨"Speed", .field .earth .moveSpeed⟩, ⟨"Color", .field .earth .color⟩,
        ⟨"Add/Remove", .field .earth .isVisible⟩])
    else if selectedObject = 4 then
      ({ w with mars := { w.mars with
           scale := ui.sliderFloat "Size" w.mars.scale 0.1 10
           rotationSpeed := ui.sliderFloat "Rotation Speed" w.mars.rotationSpeed 0 200
           moveSpeed := ui.sliderFloat "Speed" w.mars.moveSpeed 0.1 10
           color := ui.colorEdit4 "Color" w.mars.color
           isVisible := ui.checkbox "Add/Remove" w.mars.isVisible } },
       [⟨"Size", .field .mars .scale⟩, ⟨"Rotation Speed", .field .mars .rotationSpeed⟩,
        ⟨"Speed", .field .mars .moveSpeed⟩, ⟨"Color", .field .mars .color⟩,
        ⟨"Add/Remove", .field .mars .isVisible⟩])
    else if selectedObject = 5 then
      ({ w with jupiter := { w.jupiter with
           scale := ui.sliderFloat "Size" w.jupiter.scale 0.1 10
           rotationSpeed := ui.sliderFloat "Rotation Speed" w.jupiter.rotationSpeed 0 200
           moveSpeed := ui.sliderFloat "Speed" w.jupiter.moveSpeed 0.1 10
           color := ui.colorEdit4 "Color" w.jupiter.color
           isVisible := ui.checkbox "Add/Remove" w.jupiter.isVisible } },
       [⟨"Size", .field .jupiter .scale⟩, ⟨"Rotation Speed", .field .jupiter .rotationSpeed⟩,
        ⟨"Speed", .field .jupiter .moveSpeed⟩, ⟨"Color", .field .jupiter .color⟩,
        ⟨"Add/Remove", .field .jupiter .isVisible⟩])
    else if selectedObject = 6 then
      ({ w with saturn := { w.saturn with
           scale := ui.sliderFloat "Size" w.saturn.scale 0.1 10
           rotationSpeed := ui.sliderFloat "Rotation Speed" w.saturn.rotationSpeed 0 200
           moveSpeed := ui.sliderFloat "Speed" w.saturn.moveSpeed 0.1 10
           color := ui.colorEdit4 "Color" w.saturn.color
           isVisible := ui.checkbox "Add/Remove" w.saturn.isVisible } },
       [⟨"Size", .field .saturn .scale⟩, ⟨"Rotation Speed", .field .saturn .rotationSpeed⟩,
        ⟨"Speed", .field .saturn .moveSpeed⟩, ⟨"Color", .field .saturn .color⟩,
        ⟨"Add/Remove", .field .saturn .isVisible⟩])
    else if selectedObject = 7 then
      ({ w with uranus := { w.uranus with
           scale := ui.sliderFloat "Size" w.uranus.scale 0.1 10
           rotationSpeed := ui.sliderFloat "Rotation Speed" w.uranus.rotationSpeed 0 200
           moveSpeed := ui.sliderFloat "Speed" w.uranus.moveSpeed 0.1 10
           color := ui.colorEdit4 "Color" w.uranus.color
           isVisible := ui.checkbox "Add/Remove" w.uranus.isVisible } },
       [⟨"Size", .field .uranus .scale⟩, ⟨"Rotation Speed", .field .uranus .rotationSpeed⟩,
        ⟨"Speed", .field .uranus .moveSpeed⟩, ⟨"Color", .field .uranus .color⟩,
        ⟨"Add/Remove", .field .uranus .isVisible⟩])
    else if selectedObject = 8 then
      ({ w with neptune := { w.neptune with
           scale := ui.sliderFloat "Size" w.neptune.scale 0.1 10
           rotationSpeed := ui.sliderFloat "Rotation Speed" w.neptune.rotationSpeed 0 200
           moveSpeed := ui.sliderFloat "Speed" w.neptune.moveSpeed 0.1 10
           color := ui.colorEdit4 "Color" w.neptune.color
           isVisible := ui.checkbox "Add/Remove" w.neptune.isVisible } },
       [⟨"Size", .field .neptune .scale⟩, ⟨"Rotation Speed", .field .neptune .rotationSpeed⟩,
        ⟨"Speed", .field .neptune .moveSpeed⟩, ⟨"Color", .field .neptune .color⟩,
        ⟨"Add/Remove", .field .neptune .isVisible⟩])
    else if selectedObject = 9 then
      ({ w with moon := { w.moon with
           scale := ui.sliderFloat "Size" w.moon.scale 0.1 10
           rotationSpeed := ui.sliderFloat "Rotation Speed" w.moon.rotationSpeed 0 200
           moveSpeed := ui.sliderFloat "Speed" w.moon.moveSpeed 0.1 10
           color := ui.colorEdit4 "Color" w.moon.color
           isVisible := ui.checkbox "Add/Remove" w.moon.isVisible } },
       [⟨"Size", .field .moon .scale⟩, ⟨"Rotation Speed", .field .moon .rotationSpeed⟩,
        ⟨"Speed", .field .moon .moveSpeed⟩, ⟨"Color", .field .moon .color⟩,
        ⟨"Add/Remove", .field .moon .isVisible⟩])
    else if selectedObject = 10 then
      ({ w with jupiterMoonIo := { w.jupiterMoonIo with
           scale := ui.sliderFloat "Size" w.jupiterMoonIo.scale 0.1 10
           rotationSpeed := ui.sliderFloat "Rotation Speed" w.jupiterMoonIo.rotationSpeed 0 200
           moveSpeed := ui.sliderFloat "Speed" w.jupiterMoonIo.moveSpeed 0.1 10
           color := ui.colorEdit4 "Color" w.jupiterMoonIo.color
           isVisible := ui.checkbox "Add/Remove" w.jupiterMoonIo.isVisible } },
       [⟨"Size", .field .jupiterMoonIo .scale⟩,
        ⟨"Rotation Speed", .field .jupiterMoonIo .rotationSpeed⟩,
        ⟨"Speed", .field .jupiterMoonIo .moveSpeed⟩, ⟨"Color", .field .jupiterMoonIo .color⟩,
        ⟨"Add/Remove", .field .jupiterMoonIo .isVisible⟩])
    else if selectedObject = 11 then
      ({ w with jupiterMoonCallisto := { w.jupiterMoonCallisto with
           scale := ui.sliderFloat "Size" w.jupiterMoonCallisto.scale 0.1 10
           rotationSpeed :=
             ui.sliderFloat "Rotation Speed" w.jupiterMoonCallisto.rotationSpeed 0 200
           moveSpeed := ui.sliderFloat "Speed" w.jupiterMoonCallisto.moveSpeed 0.1 10
           color := ui.colorEdit4 "Color" w.jupiterMoonCallisto.color
           isVisible := ui.checkbox "Add/Remove" w.jupiterMoonCallisto.isVisible } },
       [⟨"Size", .field .jupiterMoonCallisto .scale⟩,
        ⟨"Rotation Speed", .field .jupiterMoonCallisto .rotationSpeed⟩,
        ⟨"Speed", .field .jupiterMoonCallisto .moveSpeed⟩,
        ⟨"Color", .field .jupiterMoonCallisto .color⟩,
        ⟨"Add/Remove", .field .jupiterMoonCallisto .isVisible⟩])
    else if selectedObject = 12 then
      ({ w with comet := { w.comet with
           scale := ui.sliderFloat "Size" w.comet.scale 0.1 10
           rotationSpeed := ui.sliderFloat "Rotation Speed" w.comet.rotationSpeed 0 200
           moveSpeed := ui.sliderFloat "Speed" w.comet.moveSpeed 0.1 10
           color := ui.colorEdit4 "Color" w.comet.color
           isVisible := ui.checkbox "Add/Remove" w.comet.isVisible } },
       [⟨"Size", .field .comet .scale⟩, ⟨"Rotation Speed", .field .comet .rotationSpeed⟩,
        ⟨"Speed", .field .comet .moveSpeed⟩, ⟨"Color", .field .comet .color⟩,
        ⟨"Add/Remove", .field .comet .isVisible⟩])
    else if selectedObject = 13 then
      ({ w with
           asteroidBeltMoveSpeed := ui.sliderFloat "Speed" w.asteroidBeltMoveSpeed 0.1 10
           isDrawAsteroidBelt := ui.checkbox "Add/Remove" w.isDrawAsteroidBelt },
       [⟨"Speed", .asteroidBeltMoveSpeed⟩, ⟨"Add/Remove", .isDrawAsteroidBelt⟩])
    else (w, [])
  { world := r.1
    shouldClose := ui.escapePressed
    controls := combo :: r.2 }

/-- The body held by each reference parameter. -/
def World.body (w : World F) : Body → CelestialBodies F
  | .sun => w.sun
  | .mercury => w.mercury
  | .venus => w.venus
  | .earth => w.earth
  | .mars => w.mars
  | .jupiter => w.jupiter
  | .saturn => w.saturn
  | .uranus => w.uranus
  | .neptune => w.neptune
  | .moon => w.moon
  | .jupiterMoonIo => w.jupiterMoonIo
  | .jupiterMoonCallisto => w.jupiterMoonCallisto
  | .comet => w.comet

/-- Position of a body in `celestialBodyNames`, i.e. the `case` label of the
`switch` that shows its widgets. -/
def Body.index : Body → Int
  | .sun => 0
  | .mercury => 1
  | .venus => 2
  | .earth => 3
  | .mars => 4
  | .jupiter => 5
  | .saturn => 6
  | .uranus => 7
  | .neptune => 8
  | .moon => 9
  | .jupiterMoonIo => 10
  | .jupiterMoonCallisto => 11
  | .comet => 12

/-- The parameter kinds for which a call of `processInput` shows a widget, in
order. -/
def exposedParams (r : InputResult F) : List Param :=
  r.controls.filterMap Control.param

/-- A frame without user interaction: every widget leaves its variable as it
is. -/
def idleUI : UI F :=
  { escapePressed := false
    combo := fun _ v => v
    sliderFloat := fun _ v _ _ => v
    colorEdit4 := fun _ v => v
    checkbox := fun _ v => v }

end Input

/-! ## Elementary matrices used to state the transformation theorems -/

section Elementary
variable {F : Type} [Field F]

/-- Translation by `(tx, ty, 0)`. -/
def translationMatrix (tx ty : F) : Mat4 F :=
  !![1, 0, 0, tx; 0, 1, 0, ty; 0, 0, 1, 0; 0, 0, 0, 1]

/-- Uniform scale by `s` in x and y. -/
def scaleMatrix (s : F) : Mat4 F :=
  !![s, 0, 0, 0; 0, s, 0, 0; 0, 0, 1, 0; 0, 0, 0, 1]

/-- Rotation about the z axis by the angle with cosine `c` and sine `s`. -/
def rotationZMatrix (c s : F) : Mat4 F :=
  !![c, -s, 0, 0; s, c, 0, 0; 0, 0, 1, 0; 0, 0, 0, 1]

end Elementary

/-! ## Planets and scenarios used to state the theorems -/

/-- The eight planets that have an orbit ring. -/
inductive Planet
  | mercury | venus | earth | mars | jupiter | saturn | uranus | neptune
  deriving DecidableEq, Repr

/-- The vertex array object of a planet's disc. -/
def Planet.VAO : Planet → SolarSystem.VAO
  | .mercury => .mercuryVAO
  | .venus => .venusVAO
  | .earth => .earthVAO
  | .mars => .marsVAO
  | .jupiter => .jupiterVAO
  | .saturn => .saturnVAO
  | .uranus => .uranusVAO
  | .neptune => .neptuneVAO

/-- The vertex array object of a planet's orbit ring. -/
def Planet.orbitVAO : Planet → SolarSystem.VAO
  | .mercury => .mercuryOrbitVAO
  | .venus => .venusOrbitVAO
  | .earth => .earthOrbitVAO
  | .mars => .marsOrbitVAO
  | .jupiter => .jupiterOrbitVAO
  | .saturn => .saturnOrbitVAO
  | .uranus => .uranusOrbitVAO
  | .neptune => .neptuneOrbitVAO

section Scenarios
variable {F : Type} [Field F]

/-- The variable of `main` that holds a planet. -/
def Planet.body (w : World F) : Planet → CelestialBodies F
  | .mercury => w.mercury
  | .venus => w.venus
  | .earth => w.earth
  | .mars => w.mars
  | .jupiter => w.jupiter
  | .saturn => w.saturn
  | .uranus => w.uranus
  | .neptune => w.neptune

/-- The block of the render loop that draws a planet. -/
def Planet.draw (cosf sinf : F → F) (pi : F) (clock : Nat → F) (shaderProgram : Nat)
    (w : World F) (tr : Trace F) : Planet → Trace F
  | .mercury => drawMercury cosf sinf pi clock shaderProgram w tr
  | .venus => drawVenus cosf sinf pi clock shaderProgram w tr
  | .earth => drawEarth cosf sinf pi clock shaderProgram w tr
  | .mars => drawMars cosf sinf pi clock shaderProgram w tr
  | .jupiter => drawJupiter cosf sinf pi clock shaderProgram w tr
  | .saturn => drawSaturn cosf sinf pi clock shaderProgram w tr
  | .uranus => drawUranus cosf sinf pi clock shaderProgram w tr
  | .neptune => drawNeptune cosf sinf pi clock shaderProgram w tr

/-- An image loader for which every file is readable. -/
def allTexturesPresent : String → Option Image :=
  fun _ => some ⟨64, 64, 4⟩

/-- An image loader for which `textures/sun.png` cannot be read. -/
def sunTextureMissing : String → Option Image :=
  fun path => if path = "textures/sun.png" then none else some ⟨64, 64, 4⟩

/-- Texture names as OpenGL hands them out: 1, 2, 3, ... -/
def freshTextureNames : Nat → Nat :=
  fun i => i + 1

/-- A frame in which the user picks "Moon" in the dropdown and unticks its
"Add/Remove" checkbox. -/
def hideMoonUI : UI F :=
  { escapePressed := false
    combo := fun _ _ => 9
    sliderFloat := fun _ v _ _ => v
    colorEdit4 := fun _ v => v
    checkbox := fun _ _ => false }

end Scenarios

/-! ## Frame capture: the vertical flip (main.cpp 625-640) -/

/-- A `uint8_t`. -/
abbrev Byte := Fin 256

/-- The statement `std::swap(frame[i], frame[j])`. -/
def swapBytes (frame : List Byte) (i j : Nat) : List Byte :=
  match frame[i]?, frame[j]? with
  | some a, some b => (frame.set i b).set j a
  | _, _ => frame

/-- The inner loop `for (int x = 0; x < 950; ++x)` of the flip, for row `y`,
started at column `x`.  All the `int` values stay below `950 * 950 * 4`, so
they are natural numbers here. -/
def flipRow (y : Nat) (x : Nat) (frame : List Byte) : List Byte :=
  if x < 950 then
    let topIndex := (y * 950 + x) * 4
    let bottomIndex := ((950 - y - 1) * 950 + x) * 4
    let frame := swapBytes frame topIndex bottomIndex
    let frame := swapBytes frame (topIndex + 1) (bottomIndex + 1)
    let frame := swapBytes frame (topIndex + 2) (bottomIndex + 2)
    let frame := swapBytes frame (topIndex + 3) (bottomIndex + 3)
    flipRow y (x + 1) frame
  else frame
termination_by 950 - x

/-- The outer loop `for (int y = 0; y < 950 / 2; ++y)` of the flip, started at
row `y`. -/
def flipRows (y : Nat) (frame : List Byte) : List Byte :=
  if y < 950 / 2 then flipRows (y + 1) (flipRow y 0 frame) else frame
termination_by 950 / 2 - y

/-- The block "Flip the frame vertically" applied to the captured frame. -/
def flipFrame (frame : List Byte) : List Byte :=
  flipRows 0 frame

/-! ## Proof devices for `setupObjectBuffer` -/

section BufferDevices
variable {F : Type} [Field F]

/-- Proof device: the `x, y, u, v` quadruples pushed by `m` consecutive
iterations of the `setupObjectBuffer` loop that start at index `i`. -/
def interleavedFrom (radius_x_axis radius_y_axis : F) (vertices : List F) : Nat → Nat → List F
  | _, 0 => []
  | i, m + 1 =>
    vertices.getD (2 * i) 0 ::
    vertices.getD (2 * i + 1) 0 ::
    (vertices.getD (2 * i) 0 / (2 * radius_x_axis) + 0.5) ::
    (vertices.getD (2 * i + 1) 0 / (2 * radius_y_axis) + 0.5) ::
    interleavedFrom radius_x_axis radius_y_axis vertices (i + 1) m

end BufferDevices

/-! ## Theorems: `getObjectVertices` -/

section VerticesLemmas
variable {F : Type} [Field F]

theorem ellipsePairs_length (cosf sinf : F → F) (pi rx ry : F) (segments : Int) (m : Nat) :
    ∀ segment : Int, (ellipsePairs cosf sinf pi rx ry segments segment m).length = 2 * m := by
  induction m with
  | zero => intro segment; simp [ellipsePairs]
  | succ m ih => intro segment; simp [ellipsePairs, ih]; omega

theorem ellipsePairs_get (cosf sinf : F → F) (pi rx ry : F) (segments : Int) (m : Nat) :
    ∀ (segment : Int) (k : Nat), k < m →
      (ellipsePairs cosf sinf pi rx ry segments segment m)[2 * k]? =
          some (rx * cosf ((2 * pi * ((segment + k : Int) : F)) / (segments : F))) ∧
      (ellipsePairs cosf sinf pi rx ry segments segment m)[2 * k + 1]? =
          some (ry * sinf ((2 * pi * ((segment + k : Int) : F)) / (segments : F))) := by
  induction m with
  | zero => intro segment k hk; omega
  | succ m ih =>
    intro segment k hk
    cases k with
    | zero => simp [ellipsePairs]
    | succ k =>
      have h := ih (segment + 1) k (by omega)
      have e1 : 2 * (k + 1) = (2 * k) + 1 + 1 := by omega
      have e3 : segment + ((k + 1 : Nat) : Int) = segment + 1 + (k : Int) := by
        push_cast; ring
      rw [e1, e3]
      simpa [ellipsePairs] using h

/-- Below `INT_MAX` the loop runs to completion and appends one pair per
remaining value of `segment`. -/
theorem getObjectVerticesLoop_eq (cosf sinf : F → F) (pi rx ry : F) (segments : Int)
    (hmax : segments < INT_MAX) (m : Nat) :
    ∀ (segment : Int) (vertices : List F), (segments + 1 - segment).toNat = m →
      segment ≤ segments + 1 →
      getObjectVerticesLoop cosf sinf pi rx ry segments segment vertices =
        some (vertices ++ ellipsePairs cosf sinf pi rx ry segments segment m) := by
  induction m with
  | zero =>
    intro segment vertices hm hle
    have hgt : ¬ segment ≤ segments := by omega
    rw [getObjectVerticesLoop]
    simp [hgt, ellipsePairs]
  | succ m ih =>
    intro segment vertices hm hle
    have h1 : segment ≤ segments := by omega
    have h2 : segment < INT_MAX := by omega
    rw [getObjectVerticesLoop]
    simp only [h1, h2, if_true]
    rw [ih (segment + 1) _ (by omega) (by omega)]
    simp [ellipsePairs]

/-- With `segments = INT_MAX` the loop condition never fails, so the loop ends
in the overflowing increment. -/
theorem getObjectVerticesLoop_overflow (cosf sinf : F → F) (pi rx ry : F) (m : Nat) :
    ∀ (segment : Int) (vertices : List F), (INT_MAX - segment).toNat = m →
      segment ≤ INT_MAX →
      getObjectVerticesLoop cosf sinf pi rx ry INT_MAX segment vertices = none := by
  induction m with
  | zero =>
    intro segment vertices hm hle
    have h2 : ¬ segment < INT_MAX := by omega
    rw [getObjectVerticesLoop]
    simp [hle, h2]
  | succ m ih =>
    intro segment vertices hm hle
    have h2 : segment < INT_MAX := by omega
    rw [getObjectVerticesLoop]
    simp only [hle, h2, if_true]
    exact ih (segment + 1) _ (by omega) (by omega)

theorem getObjectVertices_eq (cosf sinf : F → F) (pi rx ry : F) (n : Int)
    (h0 : 0 ≤ n) (hmax : n < INT_MAX) :
    getObjectVertices cosf sinf pi rx ry n =
      some (ellipsePairs cosf sinf pi rx ry n 0 (n + 1).toNat) := by
  unfold getObjectVertices
  rw [getObjectVerticesLoop_eq cosf sinf pi rx ry n hmax (n + 1).toNat 0 [] (by simp) (by omega)]
  simp

/-- C1 (amended): for every `n` with `0 ≤ n < INT_MAX` the call
`getObjectVertices(rx, ry, n)` returns a flat list of exactly `2*(n+1)` floats
(this includes `n = 0`), holding for each of the `n+1` vertices `x` then `y`,
and for every `n < 0` it returns the empty list. -/
theorem getObjectVertices_length (cosf sinf : F → F) (pi rx ry : F) (n : Int)
    (hmax : n < INT_MAX) :
    (0 ≤ n → ∃ vs, getObjectVertices cosf sinf pi rx ry n = some vs ∧
        (vs.length : Int) = 2 * (n + 1) ∧
        ∀ k : Nat, (k : Int) ≤ n →
          vs[2 * k]? = some (rx * cosf ((2 * pi * ((k : Int) : F)) / (n : F))) ∧
          vs[2 * k + 1]? = some (ry * sinf ((2 * pi * ((k : Int) : F)) / (n : F)))) ∧
    (n < 0 → getObjectVertices cosf sinf pi rx ry n = some []) := by
  constructor
  · intro h0
    refine ⟨_, getObjectVertices_eq cosf sinf pi rx ry n h0 hmax, ?_, ?_⟩
    · rw [ellipsePairs_length]
      omega
    · intro k hk
      have h := ellipsePairs_get cosf sinf pi rx ry n (n + 1).toNat 0 k (by omega)
      simpa using h
  · intro hneg
    unfold getObjectVertices
    rw [getObjectVerticesLoop]
    simp [not_le.mpr hneg]

end VerticesLemmas

/-- Witness for C1: `n = 0` gives two floats and `n = -1` gives none. -/
theorem getObjectVertices_length_witness :
    (∃ vs, getObjectVertices Real.cos Real.sin Real.pi 1 1 0 = some vs ∧
        (vs.length : Int) = 2 * (0 + 1) ∧
        ∀ k : Nat, (k : Int) ≤ 0 →
          vs[2 * k]? = some (1 * Real.cos ((2 * Real.pi * ((k : Int) : ℝ)) / ((0 : Int) : ℝ))) ∧
          vs[2 * k + 1]? =
            some (1 * Real.sin ((2 * Real.pi * ((k : Int) : ℝ)) / ((0 : Int) : ℝ)))) ∧
    getObjectVertices Real.cos Real.sin Real.pi 1 1 (-1) = some [] :=
  ⟨(getObjectVertices_length Real.cos Real.sin Real.pi 1 1 0 (by decide)).1 (by decide),
   (getObjectVertices_length Real.cos Real.sin Real.pi 1 1 (-1) (by decide)).2 (by decide)⟩

/-- Counterexample to C1 as stated: at `n = INT_MAX = 2147483647` (which is
`≥ 0`) the call returns no list of `2*(n+1)` floats, because the loop
condition `segment <= segments` can never fail and `segment++` overflows. -/
theorem getObjectVertices_no_list_at_int_max :
    ¬ ∃ vs, getObjectVertices Real.cos Real.sin Real.pi 1 1 2147483647 = some vs ∧
        (vs.length : Int) = 2 * (2147483647 + 1) := by
  rintro ⟨vs, h, -⟩
  have hnone := getObjectVerticesLoop_overflow Real.cos Real.sin Real.pi 1 1
    (INT_MAX - 0).toNat 0 [] rfl (by decide)
  unfold getObjectVertices at h
  have e : (2147483647 : Int) = INT_MAX := rfl
  rw [e, hnone] at h
  exact Option.noConfusion h

/-- C2 (amended): in the real-number model, for every `n` with
`1 ≤ n < INT_MAX`, every `k` with `0 ≤ k ≤ n` and all radii, the `k`-th vertex
returned by `getObjectVertices(rx, ry, n)` is
`(rx*cos(2*pi*k/n), ry*sin(2*pi*k/n))`, and for nonzero radii it satisfies
`(x/rx)^2 + (y/ry)^2 = 1`. -/
theorem getObjectVertices_vertex (rx ry : ℝ) (n : Int) (k : Nat)
    (h1 : 1 ≤ n) (hmax : n < INT_MAX) (hk : (k : Int) ≤ n) :
    ∃ vs x y, getObjectVertices Real.cos Real.sin Real.pi rx ry n = some vs ∧
      vs[2 * k]? = some x ∧ vs[2 * k + 1]? = some y ∧
      x = rx * Real.cos (2 * Real.pi * (k : ℝ) / (n : ℝ)) ∧
      y = ry * Real.sin (2 * Real.pi * (k : ℝ) / (n : ℝ)) ∧
      (rx ≠ 0 → ry ≠ 0 → (x / rx) ^ 2 + (y / ry) ^ 2 = 1) := by
  have hget := ellipsePairs_get Real.cos Real.sin Real.pi rx ry n (n + 1).toNat 0 k (by omega)
  refine ⟨_, _, _, getObjectVertices_eq Real.cos Real.sin Real.pi rx ry n (by omega) hmax,
    hget.1, hget.2, by simp, by simp, ?_⟩
  intro hx hy
  simp only [zero_add, Int.cast_natCast]
  rw [mul_div_cancel_left₀ _ hx, mul_div_cancel_left₀ _ hy]
  exact Real.cos_sq_add_sin_sq _

/-- Witness for C2: the vertex `k = 1` of a 4-segment ellipse. -/
theorem getObjectVertices_vertex_witness :
    ∃ vs x y, getObjectVertices Real.cos Real.sin Real.pi 3 2 4 = some vs ∧
      vs[2 * 1]? = some x ∧ vs[2 * 1 + 1]? = some y ∧
      x = 3 * Real.cos (2 * Real.pi * ((1 : Nat) : ℝ) / ((4 : Int) : ℝ)) ∧
      y = 2 * Real.sin (2 * Real.pi * ((1 : Nat) : ℝ) / ((4 : Int) : ℝ)) ∧
      ((3 : ℝ) ≠ 0 → (2 : ℝ) ≠ 0 → (x / 3) ^ 2 + (y / 2) ^ 2 = 1) :=
  getObjectVertices_vertex 3 2 4 1 (by decide) (by decide) (by decide)

/-- Counterexample to C2 as stated: at `n = INT_MAX = 2147483647 ≥ 1` and
`k = 0` the call returns no list, hence no vertex `(rx*cos 0, ry*sin 0)`. -/
theorem getObjectVertices_no_first_vertex_at_int_max :
    ¬ ∃ vs, getObjectVertices Real.cos Real.sin Real.pi 1 1 2147483647 = some vs ∧
      vs[2 * 0]? = some (1 * Real.cos (2 * Real.pi * ((0 : Nat) : ℝ) / ((2147483647 : Int) : ℝ))) ∧
      vs[2 * 0 + 1]? =
        some (1 * Real.sin (2 * Real.pi * ((0 : Nat) : ℝ) / ((2147483647 : Int) : ℝ))) := by
  rintro ⟨vs, h, -⟩
  have hnone := getObjectVerticesLoop_overflow Real.cos Real.sin Real.pi 1 1
    (INT_MAX - 0).toNat 0 [] rfl (by decide)
  unfold getObjectVertices at h
  have e : (2147483647 : Int) = INT_MAX := rfl
  rw [e, hnone] at h
  exact Option.noConfusion h

/-! ## Theorems: `drawPlanet` -/

section DrawLemmas
variable {F : Type} [Field F]

theorem glm_translate_eq (m : Mat4 F) (tx ty : F) :
    glm.translate m ![tx, ty, 0] = m * translationMatrix tx ty := by
  ext r c
  fin_cases c <;>
    simp [glm.translate, translationMatrix, Matrix.mul_apply, Fin.sum_univ_four,
      Matrix.vecHead, Matrix.vecTail]

theorem glm_scale_eq (m : Mat4 F) (s : F) :
    glm.scale m ![s, s, 1] = m * scaleMatrix s := by
  ext r c
  fin_cases c <;>
    simp [glm.scale, scaleMatrix, Matrix.mul_apply, Fin.sum_univ_four,
      Matrix.vecHead, Matrix.vecTail]

theorem glm_rotate_eq (cosf sinf : F → F) (m : Mat4 F) (a : F) :
    glm.rotate cosf sinf m a ![0, 0, 1] = m * rotationZMatrix (cosf a) (sinf a) := by
  ext r c
  fin_cases c <;>
    simp [glm.rotate, rotationZMatrix, Matrix.mul_apply, Fin.sum_univ_four,
      Matrix.vecHead, Matrix.vecTail]

/-- The matrix sent by `drawPlanet`, as a product of elementary matrices. -/
theorem drawPlanet_transform (cosf sinf : F → F) (pi time : F) (shaderProgram : Nat) (vao : VAO)
    (planetMoveSpeed orbitRadiusX orbitRadiusY scale : F) (segments : Int)
    (updatePosX updatePosY rotationSpeed : F) (isScale isTranslate isRotate isDrawAsRing : Bool)
    (color : Vec4 F) (useTexture : Bool) (textureID : Nat) :
    (drawPlanet cosf sinf pi time shaderProgram vao planetMoveSpeed orbitRadiusX orbitRadiusY
        scale segments updatePosX updatePosY rotationSpeed isScale isTranslate isRotate
        isDrawAsRing color useTexture textureID).1.transform =
      (if isTranslate then
          translationMatrix (orbitRadiusX * cosf (time * planetMoveSpeed) + updatePosX)
            (orbitRadiusY * sinf (time * planetMoveSpeed) + updatePosY)
        else 1) *
      (if isScale then scaleMatrix scale else 1) *
      (if isRotate then
          rotationZMatrix (cosf (time * rotationSpeed * (pi / 180)))
            (sinf (time * rotationSpeed * (pi / 180)))
        else 1) := by
  cases isTranslate <;> cases isScale <;> cases isRotate <;>
    simp [drawPlanet, glm_translate_eq, glm_scale_eq, glm_rotate_eq, glm.radians]

/-- With `isTranslate` set, the last column of the matrix sent by `drawPlanet`
holds the orbit position. -/
theorem drawPlanet_translation (cosf sinf : F → F) (pi time : F) (shaderProgram : Nat)
    (vao : VAO) (planetMoveSpeed orbitRadiusX orbitRadiusY scale : F) (segments : Int)
    (updatePosX updatePosY rotationSpeed : F) (isScale isRotate isDrawAsRing : Bool)
    (color : Vec4 F) (useTexture : Bool) (textureID : Nat) :
    (drawPlanet cosf sinf pi time shaderProgram vao planetMoveSpeed orbitRadiusX orbitRadiusY
        scale segments updatePosX updatePosY rotationSpeed isScale true isRotate
        isDrawAsRing color useTexture textureID).1.transform 0 3 =
      orbitRadiusX * cosf (time * planetMoveSpeed) + updatePosX ∧
    (drawPlanet cosf sinf pi time shaderProgram vao planetMoveSpeed orbitRadiusX orbitRadiusY
        scale segments updatePosX updatePosY rotationSpeed isScale true isRotate
        isDrawAsRing color useTexture textureID).1.transform 1 3 =
      orbitRadiusY * sinf (time * planetMoveSpeed) + updatePosY := by
  rw [drawPlanet_transform]
  cases isScale <;> cases isRotate <;>
    simp [translationMatrix, scaleMatrix, rotationZMatrix, Matrix.mul_apply,
      Fin.sum_univ_four, Matrix.vecHead, Matrix.vecTail]

end DrawLemmas

section DrawClaims
variable {F : Type} [Field F]

/-- C3: for every input with `isTranslate = true`, `drawPlanet` returns a list
of exactly two values, the new xy coordinates
`(orbitRadiusX*cos(time*planetMoveSpeed) + updatePosX,
  orbitRadiusY*sin(time*planetMoveSpeed) + updatePosY)`, and this pair is the
translation component (last column) of the matrix sent to the shader, i.e. the
place where the object's origin is drawn. -/
theorem drawPlanet_returns_translation (cosf sinf : F → F) (pi time : F) (shaderProgram : Nat)
    (vao : VAO) (planetMoveSpeed orbitRadiusX orbitRadiusY scale : F) (segments : Int)
    (updatePosX updatePosY rotationSpeed : F) (isScale isRotate isDrawAsRing : Bool)
    (color : Vec4 F) (useTexture : Bool) (textureID : Nat) :
    ∃ x y : F,
      x = orbitRadiusX * cosf (time * planetMoveSpeed) + updatePosX ∧
      y = orbitRadiusY * sinf (time * planetMoveSpeed) + updatePosY ∧
      (drawPlanet cosf sinf pi time shaderProgram vao planetMoveSpeed orbitRadiusX orbitRadiusY
        scale segments updatePosX updatePosY rotationSpeed isScale true isRotate
        isDrawAsRing color useTexture textureID).2 = [x, y] ∧
      (drawPlanet cosf sinf pi time shaderProgram vao planetMoveSpeed orbitRadiusX orbitRadiusY
        scale segments updatePosX updatePosY rotationSpeed isScale true isRotate
        isDrawAsRing color useTexture textureID).2.length = 2 ∧
      (drawPlanet cosf sinf pi time shaderProgram vao planetMoveSpeed orbitRadiusX orbitRadiusY
        scale segments updatePosX updatePosY rotationSpeed isScale true isRotate
        isDrawAsRing color useTexture textureID).1.transform 0 3 = x ∧
      (drawPlanet cosf sinf pi time shaderProgram vao planetMoveSpeed orbitRadiusX orbitRadiusY
        scale segments updatePosX updatePosY rotationSpeed isScale true isRotate
        isDrawAsRing color useTexture textureID).1.transform 1 3 = y ∧
      vertexShader (drawPlanet cosf sinf pi time shaderProgram vao planetMoveSpeed orbitRadiusX
        orbitRadiusY scale segments updatePosX updatePosY rotationSpeed isScale true isRotate
        isDrawAsRing color useTexture textureID).1.transform (0, 0) = ![x, y, 0, 1] := by
  refine ⟨_, _, rfl, rfl, rfl, rfl, ?_, ?_, ?_⟩
  · rw [drawPlanet_transform]
    cases isScale <;> cases isRotate <;>
      simp [translationMatrix, scaleMatrix, rotationZMatrix, Matrix.mul_apply,
        Fin.sum_univ_four, Matrix.vecHead, Matrix.vecTail]
  · rw [drawPlanet_transform]
    cases isScale <;> cases isRotate <;>
      simp [translationMatrix, scaleMatrix, rotationZMatrix, Matrix.mul_apply,
        Fin.sum_univ_four, Matrix.vecHead, Matrix.vecTail]
  · rw [drawPlanet_transform]
    funext i
    cases isScale <;> cases isRotate <;> fin_cases i <;>
      simp [vertexShader, Matrix.mulVec, Matrix.dotProduct, translationMatrix, scaleMatrix,
        rotationZMatrix, Matrix.mul_apply, Fin.sum_univ_four, Matrix.vecHead, Matrix.vecTail]

/-- C4: the transformation `drawPlanet` sends to the shader is, starting from
the identity, the product in this order of a translation by the orbit position
(only if `isTranslate`), a uniform xy scale by `scale` (only if `isScale`) and
a rotation about z by `time*rotationSpeed` degrees (only if `isRotate`).  With
all three flags set the vertex shader maps `(x, y)` to
`(px + s*(x*cos a - y*sin a), py + s*(x*sin a + y*cos a))` where
`a = time*rotationSpeed*pi/180`; with all three flags false it maps `(x, y)`
to itself. -/
theorem drawPlanet_sends_product (cosf sinf : F → F) (pi time : F) (shaderProgram : Nat)
    (vao : VAO) (planetMoveSpeed orbitRadiusX orbitRadiusY scale : F) (segments : Int)
    (updatePosX updatePosY rotationSpeed : F) (isScale isTranslate isRotate isDrawAsRing : Bool)
    (color : Vec4 F) (useTexture : Bool) (textureID : Nat) (x y : F) :
    (drawPlanet cosf sinf pi time shaderProgram vao planetMoveSpeed orbitRadiusX orbitRadiusY
        scale segments updatePosX updatePosY rotationSpeed isScale isTranslate isRotate
        isDrawAsRing color useTexture textureID).1.transform =
      (1 : Mat4 F) *
      (if isTranslate then
          translationMatrix (orbitRadiusX * cosf (time * planetMoveSpeed) + updatePosX)
            (orbitRadiusY * sinf (time * planetMoveSpeed) + updatePosY)
        else 1) *
      (if isScale then scaleMatrix scale else 1) *
      (if isRotate then
          rotationZMatrix (cosf (time * rotationSpeed * pi / 180))
            (sinf (time * rotationSpeed * pi / 180))
        else 1) ∧
    vertexShader (drawPlanet cosf sinf pi time shaderProgram vao planetMoveSpeed orbitRadiusX
        orbitRadiusY scale segments updatePosX updatePosY rotationSpeed true true true
        isDrawAsRing color useTexture textureID).1.transform (x, y) =
      ![(orbitRadiusX * cosf (time * planetMoveSpeed) + updatePosX) +
          scale * (x * cosf (time * rotationSpeed * pi / 180) -
            y * sinf (time * rotationSpeed * pi / 180)),
        (orbitRadiusY * sinf (time * planetMoveSpeed) + updatePosY) +
          scale * (x * sinf (time * rotationSpeed * pi / 180) +
            y * cosf (time * rotationSpeed * pi / 180)),
        0, 1] ∧
    vertexShader (drawPlanet cosf sinf pi time shaderProgram vao planetMoveSpeed orbitRadiusX
        orbitRadiusY scale segments updatePosX updatePosY rotationSpeed false false false
        isDrawAsRing color useTexture textureID).1.transform (x, y) = ![x, y, 0, 1] := by
  have ha : time * rotationSpeed * pi / 180 = time * rotationSpeed * (pi / 180) :=
    mul_div_assoc _ _ _
  refine ⟨?_, ?_, ?_⟩
  · rw [drawPlanet_transform, ha, one_mul]
  · rw [drawPlanet_transform, ha]
    funext i
    fin_cases i <;>
      simp [vertexShader, Matrix.mulVec, Matrix.dotProduct, translationMatrix, scaleMatrix,
        rotationZMatrix, Matrix.mul_apply, Fin.sum_univ_four, Matrix.vecHead, Matrix.vecTail] <;>
      ring
  · rw [drawPlanet_transform]
    funext i
    fin_cases i <;>
      simp [vertexShader, Matrix.mulVec, Matrix.dotProduct, Fin.sum_univ_four,
        Matrix.vecHead, Matrix.vecTail]

end DrawClaims

/-! ## Theorems: `loadTexture` -/

/-- C9: `loadTexture` returns 0 if and only if the image data failed to load,
and otherwise returns the texture name generated for it; `glGenTextures` never
generates the reserved name 0. -/
theorem loadTexture_returned (stbi_load : String → Option Image) (textureID : Nat)
    (path : String) (hgen : textureID ≠ 0) :
    ((loadTexture stbi_load textureID path).returned = 0 ↔ stbi_load path = none) ∧
    (stbi_load path ≠ none → (loadTexture stbi_load textureID path).returned = textureID) := by
  unfold loadTexture
  cases h : stbi_load path with
  | none => simp
  | some data => simp [hgen]

/-- Witness for C9: a readable file with generated name 7. -/
theorem loadTexture_returned_witness :
    ((loadTexture (fun _ => some ⟨64, 64, 4⟩) 7 "textures/sun.png").returned = 0 ↔
        (fun _ : String => some (⟨64, 64, 4⟩ : Image)) "textures/sun.png" = none) ∧
    ((fun _ : String => some (⟨64, 64, 4⟩ : Image)) "textures/sun.png" ≠ none →
      (loadTexture (fun _ => some ⟨64, 64, 4⟩) 7 "textures/sun.png").returned = 7) :=
  loadTexture_returned (fun _ => some ⟨64, 64, 4⟩) 7 "textures/sun.png" (by decide)

/-! ## Theorems: the render loop -/

section RenderLemmas
variable {F : Type} [Field F]

/-- The Earth block, when Earth is visible, draws the Moon, whatever
`moon.isVisible` is. -/
theorem drawEarth_moon (cosf sinf : F → F) (pi : F) (clock : Nat → F) (shaderProgram : Nat)
    (w : World F) (tr : Trace F) (hv : w.earth.isVisible = true) :
    ∃ (time ux uy : F),
      (drawPlanet cosf sinf pi time shaderProgram .earthMoonVAO w.moon.moveSpeed
          0.04 0.03 w.moon.scale 100 ux uy w.moon.rotationSpeed true true true false
          w.moon.color true w.moon.textureID).1 ∈
        (drawEarth cosf sinf pi clock shaderProgram w tr).1 := by
  simp only [drawEarth, hv, if_true, call]
  apply Exists.intro
  apply Exists.intro
  apply Exists.intro
  exact List.mem_append_right _ (List.mem_singleton_self _)

theorem drawMercury_extends (cosf sinf : F → F) (pi : F) (clock : Nat → F) (shaderProgram : Nat)
    (w : World F) (tr : Trace F) :
    ∃ l, (drawMercury cosf sinf pi clock shaderProgram w tr).1 = tr.1 ++ l := by
  unfold drawMercury
  split
  · simp only [call, List.append_assoc]
    exact ⟨_, rfl⟩
  · exact ⟨[], by simp⟩

theorem drawVenus_extends (cosf sinf : F → F) (pi : F) (clock : Nat → F) (shaderProgram : Nat)
    (w : World F) (tr : Trace F) :
    ∃ l, (drawVenus cosf sinf pi clock shaderProgram w tr).1 = tr.1 ++ l := by
  unfold drawVenus
  split
  · simp only [call, List.append_assoc]
    exact ⟨_, rfl⟩
  · exact ⟨[], by simp⟩

theorem drawEarth_extends (cosf sinf : F → F) (pi : F) (clock : Nat → F) (shaderProgram : Nat)
    (w : World F) (tr : Trace F) :
    ∃ l, (drawEarth cosf sinf pi clock shaderProgram w tr).1 = tr.1 ++ l := by
  unfold drawEarth
  split
  · simp only [call, List.append_assoc]
    exact ⟨_, rfl⟩
  · exact ⟨[], by simp⟩

/-- The Sun block, when the Sun is visible, issues one draw call with
`useTexture = true` and the Sun's `textureID`. -/
theorem drawSun_calls (cosf sinf : F → F) (pi : F) (clock : Nat → F) (shaderProgram : Nat)
    (w : World F) (tr : Trace F) (hv : w.sun.isVisible = true) :
    (drawSun cosf sinf pi clock shaderProgram w tr).1 = tr.1 ++
      [(drawPlanet cosf sinf pi (clock tr.2) shaderProgram .sunVAO w.sun.moveSpeed 0 0
        w.sun.scale 100 0 0 w.sun.rotationSpeed true true true false w.sun.color true
        w.sun.textureID).1] := by
  simp only [drawSun, hv, if_true, call]

/-- Every draw call of the Sun block is still in the frame's trace. -/
theorem renderFrame_sun (cosf sinf : F → F) (pi : F) (clock : Nat → F) (shaderProgram : Nat)
    (w : World F) (hv : w.sun.isVisible = true) :
    ∃ time, (drawPlanet cosf sinf pi time shaderProgram .sunVAO w.sun.moveSpeed 0 0
        w.sun.scale 100 0 0 w.sun.rotationSpeed true true true false w.sun.color true
        w.sun.textureID).1 ∈ (renderFrame cosf sinf pi clock shaderProgram w).1 := by
  unfold renderFrame
  simp only
  generalize drawComet cosf sinf pi clock shaderProgram w _ = tr0
  obtain ⟨l1, h1⟩ := drawMercury_extends cosf sinf pi clock shaderProgram w
    (drawSun cosf sinf pi clock shaderProgram w tr0)
  obtain ⟨l2, h2⟩ := drawVenus_extends cosf sinf pi clock shaderProgram w
    (drawMercury cosf sinf pi clock shaderProgram w
      (drawSun cosf sinf pi clock shaderProgram w tr0))
  obtain ⟨l3, h3⟩ := drawEarth_extends cosf sinf pi clock shaderProgram w
    (drawVenus cosf sinf pi clock shaderProgram w
      (drawMercury cosf sinf pi clock shaderProgram w
        (drawSun cosf sinf pi clock shaderProgram w tr0)))
  refine ⟨clock tr0.2, ?_⟩
  rw [h3, h2, h1, drawSun_calls cosf sinf pi clock shaderProgram w _ hv]
  simp

end RenderLemmas

/-- C5, the failing input: the user selects "Moon" and unticks "Add/Remove", so
`moon.isVisible` is false, and the next frame still draws the Moon, because the
render loop draws it whenever `earth.isVisible` holds. -/
theorem moon_drawn_although_hidden :
    ((processInput hideMoonUI
        (initWorld (F := ℝ) allTexturesPresent freshTextureNames)).world).moon.isVisible = false ∧
    ∃ dc ∈ (renderFrame Real.cos Real.sin Real.pi (fun i => (i : ℝ)) 3
        (processInput hideMoonUI
          (initWorld (F := ℝ) allTexturesPresent freshTextureNames)).world).1,
      dc.vao = VAO.earthMoonVAO := by
  refine ⟨by simp [processInput, hideMoonUI], ?_⟩
  have hv : ((processInput hideMoonUI
      (initWorld (F := ℝ) allTexturesPresent freshTextureNames)).world).earth.isVisible = true := by
    simp [processInput, hideMoonUI, initWorld]
  unfold renderFrame
  simp only
  generalize drawVenus Real.cos Real.sin Real.pi (fun i => (i : ℝ)) 3 _ _ = tr0
  obtain ⟨time, ux, uy, hmem⟩ :=
    drawEarth_moon Real.cos Real.sin Real.pi (fun i => (i : ℝ)) 3 _ tr0 hv
  exact ⟨_, hmem, rfl⟩

/-- C6, the failing input: `textures/sun.png` cannot be read, so `loadTexture`
returns 0 and `sun.textureID = 0`; the Sun is nevertheless drawn with
`useTexture = true` and texture 0 bound, and the fragment shader outputs the
texture sample, not the Sun's colour. -/
theorem sun_drawn_with_missing_texture :
    (initWorld (F := ℝ) sunTextureMissing freshTextureNames).sun.textureID = 0 ∧
    ∃ dc ∈ (renderFrame Real.cos Real.sin Real.pi (fun i => (i : ℝ)) 3
        (initWorld (F := ℝ) sunTextureMissing freshTextureNames)).1,
      dc.vao = VAO.sunVAO ∧ dc.useTexture = true ∧ dc.boundTexture = some 0 ∧
      ∀ textureSample : Vec4 ℝ, fragmentShader dc.useTexture textureSample dc.color =
        textureSample := by
  have h0 : (initWorld (F := ℝ) sunTextureMissing freshTextureNames).sun.textureID = 0 := by
    simp [initWorld, loadTexture, sunTextureMissing]
  refine ⟨h0, ?_⟩
  obtain ⟨time, hmem⟩ := renderFrame_sun Real.cos Real.sin Real.pi (fun i => (i : ℝ)) 3
    (initWorld (F := ℝ) sunTextureMissing freshTextureNames) rfl
  refine ⟨_, hmem, rfl, rfl, ?_, ?_⟩
  · simp [drawPlanet, h0]
  · intro s
    simp [drawPlanet, fragmentShader]

/-! ## Theorems: `processInput` -/

section InputClaims
variable {F : Type} [Field F]

/-- C7 (amended): with `k` the entry selected in the dropdown, `processInput`
shows controls for all five parameters (size, rotation speed, orbital speed,
colour, visibility) when `1 ≤ k ≤ 12`; for the Sun (`k = 0`) it shows size,
rotation speed, colour and visibility but no orbital speed; for the asteroid
belt (`k = 13`) it shows only orbital speed and visibility. -/
theorem processInput_controls (ui : UI F) (w : World F) :
    exposedParams (processInput ui w) =
      if ui.combo "Select Planet" w.selectedObject = 0 then
        [Param.scale, Param.rotationSpeed, Param.color, Param.isVisible]
      else if 1 ≤ ui.combo "Select Planet" w.selectedObject ∧
          ui.combo "Select Planet" w.selectedObject ≤ 12 then
        [Param.scale, Param.rotationSpeed, Param.moveSpeed, Param.color, Param.isVisible]
      else if ui.combo "Select Planet" w.selectedObject = 13 then
        [Param.moveSpeed, Param.isVisible]
      else [] := by
  generalize hk : ui.combo "Select Planet" w.selectedObject = k
  simp only [processInput, exposedParams, hk]
  by_cases h0 : k = 0
  · subst h0; simp [Control.param]
  by_cases h1 : k = 1
  · subst h1; simp [Control.param]
  by_cases h2 : k = 2
  · subst h2; simp [Control.param]
  by_cases h3 : k = 3
  · subst h3; simp [Control.param]
  by_cases h4 : k = 4
  · subst h4; simp [Control.param]
  by_cases h5 : k = 5
  · subst h5; simp [Control.param]
  by_cases h6 : k = 6
  · subst h6; simp [Control.param]
  by_cases h7 : k = 7
  · subst h7; simp [Control.param]
  by_cases h8 : k = 8
  · subst h8; simp [Control.param]
  by_cases h9 : k = 9
  · subst h9; simp [Control.param]
  by_cases h10 : k = 10
  · subst h10; simp [Control.param]
  by_cases h11 : k = 11
  · subst h11; simp [Control.param]
  by_cases h12 : k = 12
  · subst h12; simp [Control.param]
  by_cases h13 : k = 13
  · subst h13; simp [Control.param]
  have hr : ¬ (1 ≤ k ∧ k ≤ 12) := by omega
  simp [h0, h1, h2, h3, h4, h5, h6, h7, h8, h9, h10, h11, h12, h13, hr, Control.param]

end InputClaims

/-- Counterexample to C7 as stated: with the Sun selected (entry 0) no control
for the orbital speed is shown. -/
theorem processInput_sun_has_no_speed_control :
    (initWorld (F := ℝ) allTexturesPresent freshTextureNames).selectedObject = 0 ∧
    Param.moveSpeed ∉
      exposedParams (processInput idleUI (initWorld (F := ℝ) allTexturesPresent freshTextureNames)) := by
  constructor
  · rfl
  · simp [processInput, exposedParams, idleUI, initWorld, Control.param]

section FrameClaims
variable {F : Type} [Field F]

/-- C8: let `k` be the value of `selectedObject` that the `switch` of one
`processInput` call reads (the value the variable has after the dropdown of
that call).  Then every body other than the `k`-th entry is unchanged; no body
ever changes its `VAO`, `orbitRadiusX`, `orbitRadiusY`, `segments`,
`updatePosX`, `updatePosY`, `isScale`, `isTranslate`, `isRotate`,
`isDrawAsRing` or `textureID` (so body `k` changes at most `scale`,
`rotationSpeed`, `moveSpeed`, `color` and `isVisible`); `asteroidBeltMoveSpeed`
and `isDrawAsteroidBelt` can change only for `k = 13`; and for `k` outside
`0..13` no body and no belt variable changes. -/
theorem processInput_frame (ui : UI F) (w : World F) :
    (processInput ui w).world.selectedObject = ui.combo "Select Planet" w.selectedObject ∧
    (∀ b : Body, b.index ≠ (processInput ui w).world.selectedObject →
      (processInput ui w).world.body b = w.body b) ∧
    (∀ b : Body,
      ((processInput ui w).world.body b).VAO = (w.body b).VAO ∧
      ((processInput ui w).world.body b).orbitRadiusX = (w.body b).orbitRadiusX ∧
      ((processInput ui w).world.body b).orbitRadiusY = (w.body b).orbitRadiusY ∧
      ((processInput ui w).world.body b).segments = (w.body b).segments ∧
      ((processInput ui w).world.body b).updatePosX = (w.body b).updatePosX ∧
      ((processInput ui w).world.body b).updatePosY = (w.body b).updatePosY ∧
      ((processInput ui w).world.body b).isScale = (w.body b).isScale ∧
      ((processInput ui w).world.body b).isTranslate = (w.body b).isTranslate ∧
      ((processInput ui w).world.body b).isRotate = (w.body b).isRotate ∧
      ((processInput ui w).world.body b).isDrawAsRing = (w.body b).isDrawAsRing ∧
      ((processInput ui w).world.body b).textureID = (w.body b).textureID) ∧
    ((processInput ui w).world.selectedObject ≠ 13 →
      (processInput ui w).world.asteroidBeltMoveSpeed = w.asteroidBeltMoveSpeed ∧
      (processInput ui w).world.isDrawAsteroidBelt = w.isDrawAsteroidBelt) ∧
    (((processInput ui w).world.selectedObject < 0 ∨
        13 < (processInput ui w).world.selectedObject) →
      (∀ b : Body, (processInput ui w).world.body b = w.body b) ∧
      (processInput ui w).world.asteroidBeltMoveSpeed = w.asteroidBeltMoveSpeed ∧
      (processInput ui w).world.isDrawAsteroidBelt = w.isDrawAsteroidBelt) := by
  generalize hk : ui.combo "Select Planet" w.selectedObject = k
  have hcases : k = 0 ∨ k = 1 ∨ k = 2 ∨ k = 3 ∨ k = 4 ∨ k = 5 ∨ k = 6 ∨ k = 7 ∨ k = 8 ∨
      k = 9 ∨ k = 10 ∨ k = 11 ∨ k = 12 ∨ k = 13 ∨ (k < 0 ∨ 13 < k) := by omega
  rcases hcases with h | h | h | h | h | h | h | h | h | h | h | h | h | h | h
  case inr.inr.inr.inr.inr.inr.inr.inr.inr.inr.inr.inr.inr.inr =>
    have h0 : k ≠ 0 := by omega
    have h1 : k ≠ 1 := by omega
    have h2 : k ≠ 2 := by omega
    have h3 : k ≠ 3 := by omega
    have h4 : k ≠ 4 := by omega
    have h5 : k ≠ 5 := by omega
    have h6 : k ≠ 6 := by omega
    have h7 : k ≠ 7 := by omega
    have h8 : k ≠ 8 := by omega
    have h9 : k ≠ 9 := by omega
    have h10 : k ≠ 10 := by omega
    have h11 : k ≠ 11 := by omega
    have h12 : k ≠ 12 := by omega
    have h13 : k ≠ 13 := by omega
    simp only [processInput, hk, h0, h1, h2, h3, h4, h5, h6, h7, h8, h9, h10, h11, h12, h13,
      if_false]
    refine ⟨trivial, ?_, ?_, ?_, ?_⟩
    · intro b _; cases b <;> rfl
    · intro b; cases b <;> exact ⟨rfl, rfl, rfl, rfl, rfl, rfl, rfl, rfl, rfl, rfl, rfl⟩
    · intro _; exact ⟨trivial, trivial⟩
    · intro _; exact ⟨fun b => by cases b <;> rfl, trivial, trivial⟩
  all_goals
    subst h
    simp only [processInput, hk, Int.reduceEq, if_true, if_false]
    refine ⟨trivial, ?_, ?_, ?_, ?_⟩
    · intro b hb
      cases b <;> first | rfl | exact absurd rfl hb
    · intro b; cases b <;> exact ⟨rfl, rfl, rfl, rfl, rfl, rfl, rfl, rfl, rfl, rfl, rfl⟩
    · first
        | (intro hne; exact absurd rfl hne)
        | (intro _; exact ⟨trivial, trivial⟩)
    · intro hor
      omega

end FrameClaims

/-! ## Theorems: planets and their orbit rings -/

theorem on_ellipse (rx ry θ : ℝ) (hx : rx ≠ 0) (hy : ry ≠ 0) :
    ((rx * Real.cos θ + 0) / rx) ^ 2 + ((ry * Real.sin θ + 0) / ry) ^ 2 = 1 := by
  rw [add_zero, add_zero, mul_div_cancel_left₀ _ hx, mul_div_cancel_left₀ _ hy]
  exact Real.cos_sq_add_sin_sq θ

theorem orbit_radii_ne_zero (p : Planet) :
    (mainBufferArgs (F := ℝ) p.orbitVAO).1 ≠ 0 ∧ (mainBufferArgs (F := ℝ) p.orbitVAO).2.1 ≠ 0 := by
  cases p <;> constructor <;> norm_num [mainBufferArgs, Planet.orbitVAO]

/-- Every vertex stored in a planet's orbit-ring buffer lies on the ellipse
whose radii are the radii passed to `setupObjectBuffer` for that buffer. -/
theorem orbit_ring_vertex (p : Planet) (k : Nat) (hk : k ≤ 100) :
    ∃ (vs : List ℝ) (vx vy : ℝ),
      mainBufferVertices Real.cos Real.sin Real.pi p.orbitVAO = some vs ∧
      vs[2 * k]? = some vx ∧ vs[2 * k + 1]? = some vy ∧
      (vx / (mainBufferArgs (F := ℝ) p.orbitVAO).1) ^ 2 +
        (vy / (mainBufferArgs (F := ℝ) p.orbitVAO).2.1) ^ 2 = 1 := by
  have hr := orbit_radii_ne_zero p
  have hseg : (mainBufferArgs (F := ℝ) p.orbitVAO).2.2 = 100 := by cases p <;> rfl
  have hget := ellipsePairs_get Real.cos Real.sin Real.pi (mainBufferArgs (F := ℝ) p.orbitVAO).1
    (mainBufferArgs (F := ℝ) p.orbitVAO).2.1 100 101 0 k (by omega)
  refine ⟨_, _, _, ?_, hget.1, hget.2, ?_⟩
  · unfold mainBufferVertices
    rw [hseg]
    exact getObjectVertices_eq Real.cos Real.sin Real.pi _ _ 100 (by decide) (by decide)
  · rw [mul_div_cancel_left₀ _ hr.1, mul_div_cancel_left₀ _ hr.2]
    exact Real.cos_sq_add_sin_sq _

/-- C10: for each of the eight planets, in a frame where the planet is visible
its block draws first the orbit ring, with the identity transform, from the
buffer `orbitVAO`, and then the planet by a `drawPlanet` call whose orbit radii
are the radii `rx, ry` of that buffer.  For every clock value and every move
speed the position `(x, y)` at which the planet is drawn satisfies
`(x/rx)^2 + (y/ry)^2 = 1`, the equation that every vertex of the ring, which
the vertex shader leaves where it is, satisfies as well. -/
theorem planet_on_orbit_ring (p : Planet) (clock : Nat → ℝ) (shaderProgram : Nat)
    (w : World ℝ) (tr : Trace ℝ) (hv : (p.body w).isVisible = true) :
    ∃ (ring : DrawCall ℝ) (time : ℝ) (rest : List (DrawCall ℝ)) (x y : ℝ),
      (p.draw Real.cos Real.sin Real.pi clock shaderProgram w tr).1 =
        tr.1 ++ ring ::
          (drawPlanet Real.cos Real.sin Real.pi time shaderProgram p.VAO (p.body w).moveSpeed
            (mainBufferArgs p.orbitVAO).1 (mainBufferArgs p.orbitVAO).2.1 (p.body w).scale 100
            0 0 (p.body w).rotationSpeed true true true false (p.body w).color true
            (p.body w).textureID).1 :: rest ∧
      ring.vao = p.orbitVAO ∧ ring.mode = DrawMode.GL_LINE_LOOP ∧ ring.transform = 1 ∧
      (drawPlanet Real.cos Real.sin Real.pi time shaderProgram p.VAO (p.body w).moveSpeed
        (mainBufferArgs p.orbitVAO).1 (mainBufferArgs p.orbitVAO).2.1 (p.body w).scale 100
        0 0 (p.body w).rotationSpeed true true true false (p.body w).color true
        (p.body w).textureID).1.transform 0 3 = x ∧
      (drawPlanet Real.cos Real.sin Real.pi time shaderProgram p.VAO (p.body w).moveSpeed
        (mainBufferArgs p.orbitVAO).1 (mainBufferArgs p.orbitVAO).2.1 (p.body w).scale 100
        0 0 (p.body w).rotationSpeed true true true false (p.body w).color true
        (p.body w).textureID).1.transform 1 3 = y ∧
      (x / (mainBufferArgs (F := ℝ) p.orbitVAO).1) ^ 2 +
        (y / (mainBufferArgs (F := ℝ) p.orbitVAO).2.1) ^ 2 = 1 ∧
      ∀ k : Nat, k ≤ 100 → ∃ (vs : List ℝ) (vx vy : ℝ),
        mainBufferVertices Real.cos Real.sin Real.pi p.orbitVAO = some vs ∧
        vs[2 * k]? = some vx ∧ vs[2 * k + 1]? = some vy ∧
        vertexShader ring.transform (vx, vy) = ![vx, vy, 0, 1] ∧
        (vx / (mainBufferArgs (F := ℝ) p.orbitVAO).1) ^ 2 +
          (vy / (mainBufferArgs (F := ℝ) p.orbitVAO).2.1) ^ 2 = 1 := by
  have hr := orbit_radii_ne_zero p
  have hell := fun θ => on_ellipse _ _ θ hr.1 hr.2
  have hring := orbit_ring_vertex p
  have hid : ∀ vx vy : ℝ, vertexShader (1 : Mat4 ℝ) (vx, vy) = ![vx, vy, 0, 1] := by
    intro vx vy
    simp [vertexShader]
  cases p <;>
  · simp only [Planet.body] at hv
    simp only [Planet.draw, Planet.body, drawMercury, drawVenus, drawEarth, drawMars, drawJupiter,
      drawSaturn, drawUranus, drawNeptune, hv, if_true, call, List.append_assoc,
      List.singleton_append, List.cons_append, List.nil_append]
    apply Exists.intro
    apply Exists.intro
    apply Exists.intro
    apply Exists.intro
    apply Exists.intro
    refine ⟨rfl, rfl, rfl, ?_,
      (drawPlanet_translation _ _ _ _ _ _ _ _ _ _ _ _ _ _ _ _ _ _ _ _).1,
      (drawPlanet_translation _ _ _ _ _ _ _ _ _ _ _ _ _ _ _ _ _ _ _ _).2, hell _, ?_⟩
    · simp [drawPlanet]
    · intro k hk
      obtain ⟨vs, vx, vy, h1, h2, h3, h4⟩ := hring k hk
      refine ⟨vs, vx, vy, h1, h2, h3, ?_, h4⟩
      have : ∀ M : Mat4 ℝ, M = 1 → vertexShader M (vx, vy) = ![vx, vy, 0, 1] := by
        intro M hM
        rw [hM]
        exact hid vx vy
      apply this
      simp [drawPlanet]

/-- Witness for C10: Mars in the first frame after start-up. -/
theorem planet_on_orbit_ring_witness :
    ∃ (ring : DrawCall ℝ) (time : ℝ) (rest : List (DrawCall ℝ)) (x y : ℝ),
      (Planet.mars.draw Real.cos Real.sin Real.pi (fun i => (i : ℝ)) 3
          (initWorld (F := ℝ) allTexturesPresent freshTextureNames) ([], 0)).1 =
        ([], 0).1 ++ ring ::
          (drawPlanet Real.cos Real.sin Real.pi time 3 Planet.mars.VAO
            (Planet.mars.body (initWorld (F := ℝ) allTexturesPresent freshTextureNames)).moveSpeed
            (mainBufferArgs Planet.mars.orbitVAO).1 (mainBufferArgs Planet.mars.orbitVAO).2.1
            (Planet.mars.body (initWorld (F := ℝ) allTexturesPresent freshTextureNames)).scale 100
            0 0 (Planet.mars.body (initWorld (F := ℝ) allTexturesPresent freshTextureNames)).rotationSpeed
            true true true false
            (Planet.mars.body (initWorld (F := ℝ) allTexturesPresent freshTextureNames)).color true
            (Planet.mars.body (initWorld (F := ℝ) allTexturesPresent freshTextureNames)).textureID).1 ::
          rest ∧
      ring.vao = Planet.mars.orbitVAO ∧ ring.mode = DrawMode.GL_LINE_LOOP ∧
      ring.transform = 1 ∧
      (drawPlanet Real.cos Real.sin Real.pi time 3 Planet.mars.VAO
        (Planet.mars.body (initWorld (F := ℝ) allTexturesPresent freshTextureNames)).moveSpeed
        (mainBufferArgs Planet.mars.orbitVAO).1 (mainBufferArgs Planet.mars.orbitVAO).2.1
        (Planet.mars.body (initWorld (F := ℝ) allTexturesPresent freshTextureNames)).scale 100
        0 0 (Planet.mars.body (initWorld (F := ℝ) allTexturesPresent freshTextureNames)).rotationSpeed
        true true true false
        (Planet.mars.body (initWorld (F := ℝ) allTexturesPresent freshTextureNames)).color true
        (Planet.mars.body (initWorld (F := ℝ) allTexturesPresent freshTextureNames)).textureID).1.transform
          0 3 = x ∧
      (drawPlanet Real.cos Real.sin Real.pi time 3 Planet.mars.VAO
        (Planet.mars.body (initWorld (F := ℝ) allTexturesPresent freshTextureNames)).moveSpeed
        (mainBufferArgs Planet.mars.orbitVAO).1 (mainBufferArgs Planet.mars.orbitVAO).2.1
        (Planet.mars.body (initWorld (F := ℝ) allTexturesPresent freshTextureNames)).scale 100
        0 0 (Planet.mars.body (initWorld (F := ℝ) allTexturesPresent freshTextureNames)).rotationSpeed
        true true true false
        (Planet.mars.body (initWorld (F := ℝ) allTexturesPresent freshTextureNames)).color true
        (Planet.mars.body (initWorld (F := ℝ) allTexturesPresent freshTextureNames)).textureID).1.transform
          1 3 = y ∧
      (x / (mainBufferArgs (F := ℝ) Planet.mars.orbitVAO).1) ^ 2 +
        (y / (mainBufferArgs (F := ℝ) Planet.mars.orbitVAO).2.1) ^ 2 = 1 ∧
      ∀ k : Nat, k ≤ 100 → ∃ (vs : List ℝ) (vx vy : ℝ),
        mainBufferVertices Real.cos Real.sin Real.pi Planet.mars.orbitVAO = some vs ∧
        vs[2 * k]? = some vx ∧ vs[2 * k + 1]? = some vy ∧
        vertexShader ring.transform (vx, vy) = ![vx, vy, 0, 1] ∧
        (vx / (mainBufferArgs (F := ℝ) Planet.mars.orbitVAO).1) ^ 2 +
          (vy / (mainBufferArgs (F := ℝ) Planet.mars.orbitVAO).2.1) ^ 2 = 1 :=
  planet_on_orbit_ring Planet.mars (fun i => (i : ℝ)) 3
    (initWorld (F := ℝ) allTexturesPresent freshTextureNames) ([], 0) rfl


/-! ## Theorems: `setupObjectBuffer` -/

section BufferLemmas
variable {F : Type} [Field F]

theorem interleavedFrom_length (rx ry : F) (vertices : List F) (m : Nat) :
    ∀ i : Nat, (interleavedFrom rx ry vertices i m).length = 4 * m := by
  induction m with
  | zero => intro i; simp [interleavedFrom]
  | succ m ih => intro i; simp [interleavedFrom, ih]; omega

theorem interleavedFrom_get (rx ry : F) (vertices : List F) (m : Nat) :
    ∀ (i k : Nat), k < m →
      (interleavedFrom rx ry vertices i m)[4 * k]? = some (vertices.getD (2 * (i + k)) 0) ∧
      (interleavedFrom rx ry vertices i m)[4 * k + 1]? =
        some (vertices.getD (2 * (i + k) + 1) 0) ∧
      (interleavedFrom rx ry vertices i m)[4 * k + 2]? =
        some (vertices.getD (2 * (i + k)) 0 / (2 * rx) + 0.5) ∧
      (interleavedFrom rx ry vertices i m)[4 * k + 3]? =
        some (vertices.getD (2 * (i + k) + 1) 0 / (2 * ry) + 0.5) := by
  induction m with
  | zero => intro i k hk; omega
  | succ m ih =>
    intro i k hk
    cases k with
    | zero => simp [interleavedFrom]
    | succ k =>
      have h := ih (i + 1) k (by omega)
      have e0 : 4 * (k + 1) = 4 * k + 1 + 1 + 1 + 1 := by omega
      have e1 : 4 * (k + 1) + 1 = 4 * k + 1 + 1 + 1 + 1 + 1 := by omega
      have e2 : 4 * (k + 1) + 2 = 4 * k + 2 + 1 + 1 + 1 + 1 := by omega
      have e3 : 4 * (k + 1) + 3 = 4 * k + 3 + 1 + 1 + 1 + 1 := by omega
      have e4 : i + (k + 1) = i + 1 + k := by omega
      rw [e1, e2, e3, e0, e4]
      simpa [interleavedFrom] using h

/-- While the vertex count fits an `int`, the loop of `setupObjectBuffer` runs
to completion and appends one quadruple per remaining vertex. -/
theorem setupObjectBufferLoop_eq (rx ry : F) (vertices : List F)
    (hfit : ((vertices.length / 2 : Nat) : Int) ≤ INT_MAX) (m : Nat) :
    ∀ (i : Int) (data : List F), 0 ≤ i →
      (((vertices.length / 2 : Nat) : Int) - i).toNat = m →
      i ≤ ((vertices.length / 2 : Nat) : Int) →
      setupObjectBufferLoop rx ry vertices i data =
        some (data ++ interleavedFrom rx ry vertices i.toNat m) := by
  induction m with
  | zero =>
    intro i data h0 hm hle
    have hge : ¬ (0 ≤ i ∧ i < ((vertices.length / 2 : Nat) : Int)) := by omega
    rw [setupObjectBufferLoop, if_neg hge]
    simp [interleavedFrom]
  | succ m ih =>
    intro i data h0 hm hle
    have h1 : 0 ≤ i ∧ i < ((vertices.length / 2 : Nat) : Int) := by omega
    have h2 : i < INT_MAX := by omega
    rw [setupObjectBufferLoop, if_pos h1]
    simp only [h2, if_true]
    rw [ih (i + 1) _ (by omega) (by omega) (by omega)]
    have e : (i + 1).toNat = i.toNat + 1 := by omega
    rw [e]
    simp [interleavedFrom]

end BufferLemmas


theorem getObjectVertices_neg {F : Type} [Field F] (cosf sinf : F → F) (pi rx ry : F) (n : Int)
    (hneg : n < 0) : getObjectVertices cosf sinf pi rx ry n = some [] := by
  unfold getObjectVertices
  rw [getObjectVerticesLoop]
  simp [not_le.mpr hneg]

theorem texture_coordinate_bounds (r c : ℝ) (hr : r ≠ 0) (hlo : -1 ≤ c) (hhi : c ≤ 1) :
    0 ≤ r * c / (2 * r) + 0.5 ∧ r * c / (2 * r) + 0.5 ≤ 1 := by
  have e : r * c / (2 * r) = c / 2 := by
    field_simp
    ring
  rw [e]
  constructor <;> norm_num <;> linarith

/-- C11 (amended): for every `segments < INT_MAX`, `setupObjectBuffer` builds
an interleaved buffer of exactly 4 floats per vertex of `getObjectVertices`,
in the order `x, y, u, v`, with `u = x/(2*radius_x_axis) + 0.5` and
`v = y/(2*radius_y_axis) + 0.5`; in the real-number model, for nonzero radii
and `segments ≥ 1`, every `u` and `v` lies in `[0, 1]`. -/
theorem setupObjectBuffer_layout (rx ry : ℝ) (n : Int) (hmax : n < INT_MAX) :
    ∃ vs data : List ℝ,
      getObjectVertices Real.cos Real.sin Real.pi rx ry n = some vs ∧
      setupObjectBuffer Real.cos Real.sin Real.pi rx ry n = some data ∧
      data.length = 4 * (vs.length / 2) ∧
      ∀ i : Nat, i < vs.length / 2 → ∃ x y u v : ℝ,
        vs[2 * i]? = some x ∧ vs[2 * i + 1]? = some y ∧
        data[4 * i]? = some x ∧ data[4 * i + 1]? = some y ∧
        data[4 * i + 2]? = some u ∧ data[4 * i + 3]? = some v ∧
        u = x / (2 * rx) + 0.5 ∧ v = y / (2 * ry) + 0.5 ∧
        (rx ≠ 0 → ry ≠ 0 → 1 ≤ n → 0 ≤ u ∧ u ≤ 1 ∧ 0 ≤ v ∧ v ≤ 1) := by
  by_cases h0 : 0 ≤ n
  · obtain ⟨vs, hvs, hlen, hget⟩ : ∃ vs : List ℝ,
        getObjectVertices Real.cos Real.sin Real.pi rx ry n = some vs ∧
        vs.length = 2 * (n + 1).toNat ∧
        ∀ i : Nat, i < (n + 1).toNat →
          vs[2 * i]? = some (rx * Real.cos ((2 * Real.pi * (i : ℝ)) / (n : ℝ))) ∧
          vs[2 * i + 1]? = some (ry * Real.sin ((2 * Real.pi * (i : ℝ)) / (n : ℝ))) :=
      ⟨_, getObjectVertices_eq Real.cos Real.sin Real.pi rx ry n h0 hmax,
        ellipsePairs_length Real.cos Real.sin Real.pi rx ry n (n + 1).toNat 0,
        fun i hi => by
          simpa using ellipsePairs_get Real.cos Real.sin Real.pi rx ry n (n + 1).toNat 0 i hi⟩
    have hhalf : vs.length / 2 = (n + 1).toNat := by omega
    have hfit : ((vs.length / 2 : Nat) : Int) ≤ INT_MAX := by
      rw [hhalf]; omega
    have hloop := setupObjectBufferLoop_eq rx ry vs hfit (n + 1).toNat 0 [] (le_refl 0)
      (by rw [hhalf]; omega) (by omega)
    simp only [Int.toNat_zero, List.nil_append] at hloop
    refine ⟨vs, interleavedFrom rx ry vs 0 (n + 1).toNat, hvs, ?_, ?_, ?_⟩
    · unfold setupObjectBuffer
      rw [hvs]
      exact hloop
    · rw [interleavedFrom_length, hhalf]
    · intro i hi
      rw [hhalf] at hi
      have hv := hget i hi
      have hd := interleavedFrom_get rx ry vs (n + 1).toNat 0 i hi
      simp only [zero_add, List.getD_eq_getElem?_getD, hv.1, hv.2, Option.getD_some] at hd
      refine ⟨_, _, _, _, hv.1, hv.2, hd.1, hd.2.1, hd.2.2.1, hd.2.2.2, rfl, rfl, ?_⟩
      intro hx hy _
      have bx := texture_coordinate_bounds rx (Real.cos (2 * Real.pi * (i : ℝ) / (n : ℝ))) hx
        (Real.neg_one_le_cos _) (Real.cos_le_one _)
      have by' := texture_coordinate_bounds ry (Real.sin (2 * Real.pi * (i : ℝ) / (n : ℝ))) hy
        (Real.neg_one_le_sin _) (Real.sin_le_one _)
      exact ⟨bx.1, bx.2, by'.1, by'.2⟩
  · have hvs := getObjectVertices_neg Real.cos Real.sin Real.pi rx ry n (by omega)
    refine ⟨[], [], hvs, ?_, rfl, ?_⟩
    · unfold setupObjectBuffer
      rw [hvs]
      simp only
      rw [setupObjectBufferLoop]
      simp
    · intro i hi
      simp at hi

/-- Witness for C11: the buffer of Mars' orbit ring. -/
theorem setupObjectBuffer_layout_witness :
    ∃ vs data : List ℝ,
      getObjectVertices Real.cos Real.sin Real.pi 0.32 0.29 100 = some vs ∧
      setupObjectBuffer Real.cos Real.sin Real.pi 0.32 0.29 100 = some data ∧
      data.length = 4 * (vs.length / 2) ∧
      ∀ i : Nat, i < vs.length / 2 → ∃ x y u v : ℝ,
        vs[2 * i]? = some x ∧ vs[2 * i + 1]? = some y ∧
        data[4 * i]? = some x ∧ data[4 * i + 1]? = some y ∧
        data[4 * i + 2]? = some u ∧ data[4 * i + 3]? = some v ∧
        u = x / (2 * 0.32) + 0.5 ∧ v = y / (2 * 0.29) + 0.5 ∧
        ((0.32 : ℝ) ≠ 0 → (0.29 : ℝ) ≠ 0 → (1 : Int) ≤ 100 → 0 ≤ u ∧ u ≤ 1 ∧ 0 ≤ v ∧ v ≤ 1) :=
  setupObjectBuffer_layout 0.32 0.29 100 (by decide)

theorem getObjectVertices_overflow {F : Type} [Field F] (cosf sinf : F → F) (pi rx ry : F) :
    getObjectVertices cosf sinf pi rx ry INT_MAX = none := by
  unfold getObjectVertices
  exact getObjectVerticesLoop_overflow cosf sinf pi rx ry (INT_MAX - 0).toNat 0 [] rfl
    (by decide)

theorem setupObjectBuffer_of_none {F : Type} [Field F] (cosf sinf : F → F) (pi rx ry : F)
    (n : Int) (h : getObjectVertices cosf sinf pi rx ry n = none) :
    setupObjectBuffer cosf sinf pi rx ry n = none := by
  unfold setupObjectBuffer
  rw [h]

/-- Counterexample to C11 as stated: with `segments = INT_MAX = 2147483647`
(and radii 1) `getObjectVertices` returns no vertices, so no buffer is built. -/
theorem setupObjectBuffer_no_buffer_at_int_max :
    ¬ ∃ data : List ℝ,
      setupObjectBuffer Real.cos Real.sin Real.pi 1 1 2147483647 = some data := by
  rintro ⟨data, h⟩
  have hnone : setupObjectBuffer Real.cos Real.sin Real.pi 1 1 2147483647 = none :=
    setupObjectBuffer_of_none Real.cos Real.sin Real.pi 1 1 INT_MAX
      (getObjectVertices_overflow Real.cos Real.sin Real.pi 1 1)
  rw [hnone] at h
  exact Option.noConfusion h


/-! ## Theorems: the vertical flip -/

theorem swapBytes_length (f : List Byte) (i j : Nat) : (swapBytes f i j).length = f.length := by
  unfold swapBytes
  split <;> simp

theorem swapBytes_get (f : List Byte) (i j k : Nat) (hi : i < f.length) (hj : j < f.length) :
    (swapBytes f i j)[k]? = if k = j then f[i]? else if k = i then f[j]? else f[k]? := by
  unfold swapBytes
  rw [List.getElem?_eq_getElem hi, List.getElem?_eq_getElem hj]
  simp only [List.getElem?_set, List.length_set]
  by_cases h1 : k = j
  · subst h1
    simp [hj]
  · by_cases h2 : k = i
    · subst h2
      simp [hi, Ne.symm h1, h1]
    · simp [h1, h2, Ne.symm h1, Ne.symm h2]


theorem swapBytes_other (f : List Byte) (i j k : Nat) (hki : k ≠ i) (hkj : k ≠ j) :
    (swapBytes f i j)[k]? = f[k]? := by
  unfold swapBytes
  split
  · simp [List.getElem?_set, Ne.symm hki, Ne.symm hkj]
  · rfl

theorem swapBytes_left (f : List Byte) (i j : Nat) (hi : i < f.length) (hj : j < f.length) :
    (swapBytes f i j)[i]? = f[j]? := by
  rw [swapBytes_get f i j i hi hj]
  by_cases h : i = j
  · rw [if_pos h, h]
  · rw [if_neg h, if_pos rfl]

theorem swapBytes_right (f : List Byte) (i j : Nat) (hi : i < f.length) (hj : j < f.length) :
    (swapBytes f i j)[j]? = f[i]? := by
  rw [swapBytes_get f i j j hi hj]
  simp

/-- Four byte swaps at `t .. t+3` and `b .. b+3`, for disjoint ranges inside
the frame. -/
theorem swapFour_get (f : List Byte) (t b k : Nat) (htb : t + 3 < b) (hb : b + 3 < f.length) :
    (swapBytes (swapBytes (swapBytes (swapBytes f t b) (t + 1) (b + 1)) (t + 2) (b + 2))
        (t + 3) (b + 3))[k]? =
      if t ≤ k ∧ k < t + 4 then f[k - t + b]?
      else if b ≤ k ∧ k < b + 4 then f[k - b + t]?
      else f[k]? := by
  have hcases : k = t ∨ k = t + 1 ∨ k = t + 2 ∨ k = t + 3 ∨ k = b ∨ k = b + 1 ∨ k = b + 2 ∨
      k = b + 3 ∨ (¬ (t ≤ k ∧ k < t + 4) ∧ ¬ (b ≤ k ∧ k < b + 4)) := by omega
  rcases hcases with h | h | h | h | h | h | h | h | ⟨h1, h2⟩
  · subst h
    rw [swapBytes_other _ _ _ _ (by omega) (by omega),
      swapBytes_other _ _ _ _ (by omega) (by omega),
      swapBytes_other _ _ _ _ (by omega) (by omega),
      swapBytes_left _ _ _ (by omega) (by omega), if_pos (by omega)]
    congr 1; omega
  · subst h
    rw [swapBytes_other _ _ _ _ (by omega) (by omega),
      swapBytes_other _ _ _ _ (by omega) (by omega),
      swapBytes_left _ _ _ (by rw [swapBytes_length]; omega) (by rw [swapBytes_length]; omega),
      swapBytes_other _ _ _ _ (by omega) (by omega), if_pos (by omega)]
    congr 1; omega
  · subst h
    rw [swapBytes_other _ _ _ _ (by omega) (by omega),
      swapBytes_left _ _ _ (by simp only [swapBytes_length]; omega)
        (by simp only [swapBytes_length]; omega),
      swapBytes_other _ _ _ _ (by omega) (by omega),
      swapBytes_other _ _ _ _ (by omega) (by omega), if_pos (by omega)]
    congr 1; omega
  · subst h
    rw [swapBytes_left _ _ _ (by simp only [swapBytes_length]; omega)
        (by simp only [swapBytes_length]; omega),
      swapBytes_other _ _ _ _ (by omega) (by omega),
      swapBytes_other _ _ _ _ (by omega) (by omega),
      swapBytes_other _ _ _ _ (by omega) (by omega), if_pos (by omega)]
    congr 1; omega
  · subst h
    rw [swapBytes_other _ _ _ _ (by omega) (by omega),
      swapBytes_other _ _ _ _ (by omega) (by omega),
      swapBytes_other _ _ _ _ (by omega) (by omega),
      swapBytes_right _ _ _ (by omega) (by omega), if_neg (by omega), if_pos (by omega)]
    congr 1; omega
  · subst h
    rw [swapBytes_other _ _ _ _ (by omega) (by omega),
      swapBytes_other _ _ _ _ (by omega) (by omega),
      swapBytes_right _ _ _ (by rw [swapBytes_length]; omega) (by rw [swapBytes_length]; omega),
      swapBytes_other _ _ _ _ (by omega) (by omega), if_neg (by omega), if_pos (by omega)]
    congr 1; omega
  · subst h
    rw [swapBytes_other _ _ _ _ (by omega) (by omega),
      swapBytes_right _ _ _ (by simp only [swapBytes_length]; omega)
        (by simp only [swapBytes_length]; omega),
      swapBytes_other _ _ _ _ (by omega) (by omega),
      swapBytes_other _ _ _ _ (by omega) (by omega), if_neg (by omega), if_pos (by omega)]
    congr 1; omega
  · subst h
    rw [swapBytes_right _ _ _ (by simp only [swapBytes_length]; omega)
        (by simp only [swapBytes_length]; omega),
      swapBytes_other _ _ _ _ (by omega) (by omega),
      swapBytes_other _ _ _ _ (by omega) (by omega),
      swapBytes_other _ _ _ _ (by omega) (by omega), if_neg (by omega), if_pos (by omega)]
    congr 1; omega
  · rw [swapBytes_other _ _ _ _ (by omega) (by omega),
      swapBytes_other _ _ _ _ (by omega) (by omega),
      swapBytes_other _ _ _ _ (by omega) (by omega),
      swapBytes_other _ _ _ _ (by omega) (by omega), if_neg h1, if_neg h2]

/-- The four swaps of one loop iteration exchange the pixel `(y, x)` with the
pixel `(949 - y, x)` and leave every other byte where it is. -/
theorem swapPixel_get (f : List Byte) (hlen : f.length = 3610000) (y x : Nat)
    (hy : y < 475) (hx : x < 950) (r col c : Nat) (hr : r < 950) (hcol : col < 950)
    (hc : c < 4) :
    (swapBytes (swapBytes (swapBytes (swapBytes f ((y * 950 + x) * 4)
        (((950 - y - 1) * 950 + x) * 4)) ((y * 950 + x) * 4 + 1)
        (((950 - y - 1) * 950 + x) * 4 + 1)) ((y * 950 + x) * 4 + 2)
        (((950 - y - 1) * 950 + x) * 4 + 2)) ((y * 950 + x) * 4 + 3)
        (((950 - y - 1) * 950 + x) * 4 + 3))[(r * 950 + col) * 4 + c]? =
      if col = x ∧ (r = y ∨ r = 949 - y) then f[((949 - r) * 950 + col) * 4 + c]?
      else f[(r * 950 + col) * 4 + c]? := by
  rw [swapFour_get f _ _ _ (by omega) (by omega)]
  by_cases h1 : col = x ∧ r = y
  · rw [if_pos (by omega), if_pos (by omega)]
    congr 1
    omega
  · by_cases h2 : col = x ∧ r = 949 - y
    · rw [if_neg (by omega), if_pos (by omega), if_pos (by omega)]
      congr 1
      omega
    · rw [if_neg (by omega), if_neg (by omega), if_neg (by omega)]

/-- The inner loop from column `x` on exchanges the columns `x .. 949` of the
rows `y` and `949 - y`. -/
theorem flipRow_spec (y : Nat) (hy : y < 475) (m : Nat) :
    ∀ (x : Nat) (f : List Byte), 950 - x = m → x ≤ 950 → f.length = 3610000 →
      (flipRow y x f).length = 3610000 ∧
      ∀ r col c : Nat, r < 950 → col < 950 → c < 4 →
        (flipRow y x f)[(r * 950 + col) * 4 + c]? =
          if (r = y ∨ r = 949 - y) ∧ x ≤ col then f[((949 - r) * 950 + col) * 4 + c]?
          else f[(r * 950 + col) * 4 + c]? := by
  induction m with
  | zero =>
    intro x f hm hx hlen
    have hx' : ¬ x < 950 := by omega
    rw [flipRow, if_neg hx']
    refine ⟨hlen, ?_⟩
    intro r col c hr hcol hc
    rw [if_neg (by omega)]
  | succ m ih =>
    intro x f hm hx hlen
    have hx' : x < 950 := by omega
    rw [flipRow, if_pos hx']
    simp only
    have hlen' : (swapBytes (swapBytes (swapBytes (swapBytes f ((y * 950 + x) * 4)
        (((950 - y - 1) * 950 + x) * 4)) ((y * 950 + x) * 4 + 1)
        (((950 - y - 1) * 950 + x) * 4 + 1)) ((y * 950 + x) * 4 + 2)
        (((950 - y - 1) * 950 + x) * 4 + 2)) ((y * 950 + x) * 4 + 3)
        (((950 - y - 1) * 950 + x) * 4 + 3)).length = 3610000 := by
      simp only [swapBytes_length, hlen]
    obtain ⟨hl, hg⟩ := ih (x + 1) _ (by omega) (by omega) hlen'
    refine ⟨hl, ?_⟩
    intro r col c hr hcol hc
    rw [hg r col c hr hcol hc]
    by_cases hrow : r = y ∨ r = 949 - y
    · by_cases hcx : x + 1 ≤ col
      · rw [if_pos ⟨hrow, hcx⟩, if_pos ⟨hrow, by omega⟩,
          swapPixel_get f hlen y x hy hx' (949 - r) col c (by omega) hcol hc,
          if_neg (by omega)]
      · rw [if_neg (by omega), swapPixel_get f hlen y x hy hx' r col c hr hcol hc]
        by_cases hcol' : col = x
        · rw [if_pos ⟨hcol', hrow⟩, if_pos ⟨hrow, by omega⟩]
        · rw [if_neg (by omega), if_neg (by omega)]
    · rw [if_neg (by tauto), if_neg (by tauto),
        swapPixel_get f hlen y x hy hx' r col c hr hcol hc, if_neg (by tauto)]

/-- The outer loop from row `y` on, applied to a frame `f`, exchanges the rows
`y .. 474` with the rows `949 - y .. 475`. -/
theorem flipRows_spec (m : Nat) :
    ∀ (y : Nat) (f : List Byte), 475 - y = m → y ≤ 475 → f.length = 3610000 →
      (flipRows y f).length = 3610000 ∧
      ∀ r col c : Nat, r < 950 → col < 950 → c < 4 →
        (flipRows y f)[(r * 950 + col) * 4 + c]? =
          if y ≤ r ∧ r ≤ 949 - y then f[((949 - r) * 950 + col) * 4 + c]?
          else f[(r * 950 + col) * 4 + c]? := by
  induction m with
  | zero =>
    intro y f hm hy hlen
    have hy' : ¬ y < 950 / 2 := by omega
    rw [flipRows, if_neg hy']
    refine ⟨hlen, ?_⟩
    intro r col c hr hcol hc
    rw [if_neg (by omega)]
  | succ m ih =>
    intro y f hm hy hlen
    have hy' : y < 950 / 2 := by omega
    have hy475 : y < 475 := by omega
    rw [flipRows, if_pos hy']
    obtain ⟨hl1, hg1⟩ := flipRow_spec y hy475 950 0 f rfl (by omega) hlen
    obtain ⟨hl, hg⟩ := ih (y + 1) (flipRow y 0 f) (by omega) (by omega) hl1
    refine ⟨hl, ?_⟩
    intro r col c hr hcol hc
    rw [hg r col c hr hcol hc]
    by_cases hin : y + 1 ≤ r ∧ r ≤ 949 - (y + 1)
    · rw [if_pos hin, if_pos (by omega), hg1 (949 - r) col c (by omega) hcol hc,
        if_neg (by omega)]
    · rw [if_neg hin, hg1 r col c hr hcol hc]
      by_cases hrow : r = y ∨ r = 949 - y
      · rw [if_pos ⟨hrow, by omega⟩, if_pos (by omega)]
      · rw [if_neg (by tauto), if_neg (by omega)]

/-- C12: the flip loop flips the captured 950x950 RGBA frame vertically: the
frame keeps its size and, for every row `y`, column `x` and channel `c`, the
byte at index `(y*950 + x)*4 + c` after the loop is the byte that was at index
`((949 - y)*950 + x)*4 + c` before it. -/
theorem flipFrame_flips (frame : List Byte) (hlen : frame.length = 950 * 950 * 4)
    (y x c : Nat) (hy : y < 950) (hx : x < 950) (hc : c < 4) :
    (flipFrame frame).length = 950 * 950 * 4 ∧
    (flipFrame frame)[(y * 950 + x) * 4 + c]? = frame[((949 - y) * 950 + x) * 4 + c]? ∧
    ((949 - y) * 950 + x) * 4 + c < frame.length := by
  obtain ⟨hl, hg⟩ := flipRows_spec 475 0 frame rfl (by omega) hlen
  refine ⟨hl, ?_, by omega⟩
  unfold flipFrame
  rw [hg y x c hy hx hc, if_pos (by omega)]

/-- Witness for C12: a frame whose byte at index `i` is `i mod 256`, read at
the first byte of the top row. -/
theorem flipFrame_flips_witness :
    (flipFrame ((List.range (950 * 950 * 4)).map (fun i => (Fin.ofNat i : Byte)))).length =
      950 * 950 * 4 ∧
    (flipFrame ((List.range (950 * 950 * 4)).map (fun i => (Fin.ofNat i : Byte))))[(0 * 950 + 0) * 4 + 0]? =
      ((List.range (950 * 950 * 4)).map (fun i => (Fin.ofNat i : Byte)))[((949 - 0) * 950 + 0) * 4 + 0]? ∧
    ((949 - 0) * 950 + 0) * 4 + 0 <
      ((List.range (950 * 950 * 4)).map (fun i => (Fin.ofNat i : Byte))).length :=
  flipFrame_flips ((List.range (950 * 950 * 4)).map (fun i => (Fin.ofNat i : Byte)))
    (by rw [List.length_map, List.length_range]) 0 0 0 (by decide) (by decide) (by decide)

/-! ## Theorems: `drawAsteroidBelt` -/

section BeltLemmas
variable {F : Type} [Field F]

/-- The first belt from `segment` on issues one draw call for every second
value of `segment` up to 100. -/
theorem drawAsteroidBelt1_calls (cosf sinf : F → F) (pi : F) (clock : Nat → F)
    (shaderProgram : Nat) (vao : VAO) (speed : F) (m : Nat) :
    ∀ (segment : Int) (tr : Trace F), ((102 - segment) / 2).toNat = m →
      ∃ l : List (DrawCall F),
        (drawAsteroidBelt1 cosf sinf pi clock shaderProgram vao speed segment tr).1 = tr.1 ++ l ∧
        l.length = m ∧ ∀ dc ∈ l, dc.vao = vao := by
  induction m with
  | zero =>
    intro segment tr hm
    have h : ¬ segment ≤ 100 := by omega
    rw [drawAsteroidBelt1, if_neg h]
    exact ⟨[], by simp, rfl, by simp⟩
  | succ m ih =>
    intro segment tr hm
    have h : segment ≤ 100 := by omega
    rw [drawAsteroidBelt1, if_pos h]
    simp only
    obtain ⟨l, hl, hlen, hvao⟩ := ih (segment + 2) _ (by omega)
    rw [hl]
    apply Exists.intro
    refine ⟨List.append_assoc _ _ _, ?_, ?_⟩
    · simp [hlen]
    · intro dc hdc
      rcases List.mem_append.mp hdc with hmem | hmem
      · rw [List.mem_singleton.mp hmem]
        rfl
      · exact hvao dc hmem

/-- The inner loop of the second belt from `i` on issues one draw call for
every value of `i` up to 100. -/
theorem drawAsteroidBelt2Inner_calls (cosf sinf : F → F) (pi : F) (clock : Nat → F)
    (shaderProgram : Nat) (vao : VAO) (speed : F) (segment : Int) (m : Nat) :
    ∀ (i : Int) (tr : Trace F), (101 - i).toNat = m →
      ∃ l : List (DrawCall F),
        (drawAsteroidBelt2Inner cosf sinf pi clock shaderProgram vao speed segment i tr).1 =
          tr.1 ++ l ∧
        l.length = m ∧ ∀ dc ∈ l, dc.vao = vao := by
  induction m with
  | zero =>
    intro i tr hm
    have h : ¬ i ≤ 100 := by omega
    rw [drawAsteroidBelt2Inner, if_neg h]
    exact ⟨[], by simp, rfl, by simp⟩
  | succ m ih =>
    intro i tr hm
    have h : i ≤ 100 := by omega
    rw [drawAsteroidBelt2Inner, if_pos h]
    simp only
    obtain ⟨l, hl, hlen, hvao⟩ := ih (i + 1) _ (by omega)
    rw [hl]
    apply Exists.intro
    refine ⟨List.append_assoc _ _ _, ?_, ?_⟩
    · simp [hlen]
    · intro dc hdc
      rcases List.mem_append.mp hdc with hmem | hmem
      · rw [List.mem_singleton.mp hmem]
        rfl
      · exact hvao dc hmem

/-- The second belt from `segment` on runs the whole inner loop, 101 draw
calls, for every value of `segment` up to 100. -/
theorem drawAsteroidBelt2_calls (cosf sinf : F → F) (pi : F) (clock : Nat → F)
    (shaderProgram : Nat) (vao : VAO) (speed : F) (m : Nat) :
    ∀ (segment : Int) (tr : Trace F), (101 - segment).toNat = m →
      ∃ l : List (DrawCall F),
        (drawAsteroidBelt2 cosf sinf pi clock shaderProgram vao speed segment tr).1 = tr.1 ++ l ∧
        l.length = 101 * m ∧ ∀ dc ∈ l, dc.vao = vao := by
  induction m with
  | zero =>
    intro segment tr hm
    have h : ¬ segment ≤ 100 := by omega
    rw [drawAsteroidBelt2, if_neg h]
    exact ⟨[], by simp, rfl, by simp⟩
  | succ m ih =>
    intro segment tr hm
    have h : segment ≤ 100 := by omega
    rw [drawAsteroidBelt2, if_pos h]
    obtain ⟨l1, hl1, hlen1, hvao1⟩ := drawAsteroidBelt2Inner_calls cosf sinf pi clock
      shaderProgram vao speed segment 101 0 tr rfl
    obtain ⟨l, hl, hlen, hvao⟩ := ih (segment + 1)
      (drawAsteroidBelt2Inner cosf sinf pi clock shaderProgram vao speed segment 0 tr) (by omega)
    rw [hl, hl1]
    refine ⟨l1 ++ l, by simp, by simp [hlen1, hlen]; omega, ?_⟩
    intro dc hdc
    rcases List.mem_append.mp hdc with hmem | hmem
    · exact hvao1 dc hmem
    · exact hvao dc hmem

/-- The third belt from `segment` on issues one draw call for every value of
`segment` up to 100. -/
theorem drawAsteroidBelt3_calls (cosf sinf : F → F) (pi : F) (clock : Nat → F)
    (shaderProgram : Nat) (vao : VAO) (speed : F) (m : Nat) :
    ∀ (segment : Int) (tr : Trace F), (101 - segment).toNat = m →
      ∃ l : List (DrawCall F),
        (drawAsteroidBelt3 cosf sinf pi clock shaderProgram vao speed segment tr).1 = tr.1 ++ l ∧
        l.length = m ∧ ∀ dc ∈ l, dc.vao = vao := by
  induction m with
  | zero =>
    intro segment tr hm
    have h : ¬ segment ≤ 100 := by omega
    rw [drawAsteroidBelt3, if_neg h]
    exact ⟨[], by simp, rfl, by simp⟩
  | succ m ih =>
    intro segment tr hm
    have h : segment ≤ 100 := by omega
    rw [drawAsteroidBelt3, if_pos h]
    simp only
    obtain ⟨l, hl, hlen, hvao⟩ := ih (segment + 1) _ (by omega)
    rw [hl]
    apply Exists.intro
    refine ⟨List.append_assoc _ _ _, ?_, ?_⟩
    · simp [hlen]
    · intro dc hdc
      rcases List.mem_append.mp hdc with hmem | hmem
      · rw [List.mem_singleton.mp hmem]
        rfl
      · exact hvao dc hmem

/-- C13, what the code does on every call: one `drawPlanet` call per innermost
loop iteration, but the first belt is produced by 51 iterations, the second by
101 * 101 = 10201 and the third by 101, not by 100 each. -/
theorem drawAsteroidBelt_call_counts (cosf sinf : F → F) (pi : F) (clock : Nat → F)
    (shaderProgram : Nat) (vao : VAO) (speed : F) (tr : Trace F) :
    ∃ belt1 belt2 belt3 : List (DrawCall F),
      (drawAsteroidBelt cosf sinf pi clock shaderProgram vao speed tr).1 =
        tr.1 ++ belt1 ++ belt2 ++ belt3 ∧
      (drawAsteroidBelt1 cosf sinf pi clock shaderProgram vao speed 0 tr).1 = tr.1 ++ belt1 ∧
      (drawAsteroidBelt2 cosf sinf pi clock shaderProgram vao speed 0
        (drawAsteroidBelt1 cosf sinf pi clock shaderProgram vao speed 0 tr)).1 =
          tr.1 ++ belt1 ++ belt2 ∧
      belt1.length = 51 ∧ belt2.length = 10201 ∧ belt3.length = 101 ∧
      (∀ dc ∈ belt1 ++ belt2 ++ belt3, dc.vao = vao) ∧
      belt1.length ≠ 100 ∧ belt2.length ≠ 100 ∧ belt3.length ≠ 100 := by
  obtain ⟨l1, h1, n1, v1⟩ := drawAsteroidBelt1_calls cosf sinf pi clock shaderProgram vao speed
    51 0 tr rfl
  obtain ⟨l2, h2, n2, v2⟩ := drawAsteroidBelt2_calls cosf sinf pi clock shaderProgram vao speed
    101 0 (drawAsteroidBelt1 cosf sinf pi clock shaderProgram vao speed 0 tr) rfl
  obtain ⟨l3, h3, n3, v3⟩ := drawAsteroidBelt3_calls cosf sinf pi clock shaderProgram vao speed
    101 0 (drawAsteroidBelt2 cosf sinf pi clock shaderProgram vao speed 0
      (drawAsteroidBelt1 cosf sinf pi clock shaderProgram vao speed 0 tr)) rfl
  refine ⟨l1, l2, l3, ?_, h1, ?_, n1, by omega, n3, ?_, by omega, by omega, by omega⟩
  · unfold drawAsteroidBelt
    rw [h3, h2, h1]
  · rw [h2, h1]
  · intro dc hdc
    rcases List.mem_append.mp hdc with hmem | hmem
    · rcases List.mem_append.mp hmem with hmem | hmem
      · exact v1 dc hmem
      · exact v2 dc hmem
    · exact v3 dc hmem

end BeltLemmas

end SolarSystem
